import Mathlib

/-!
Verification development for the discord-mcp server (Go).

The Go program is shallowly embedded: every definition below is translated
from a named function of the repository source. Go dynamic values of type
`interface\x7b\x7d` (as produced by schema literals and decoded JSON payloads) are
modelled by the inductive type `GoVal`, whose constructors correspond to the
concrete dynamic types that actually occur in the program: `string`, `int`,
`bool`, `[]string`, `map[string]interface\x7b\x7d`, `[]map[string]interface\x7b\x7d`,
`[]interface\x7b\x7d` and `nil`. Go type assertions such as `x.(string)` become
pattern matches on the corresponding constructor. Go maps are modelled as
association lists; Go map iteration order is unspecified, and the embedding
fixes it to the list order of the association list.
-/

/-- Model of a Go `interface\x7b\x7d` value as used by the validator and the tool
pipeline (schemas, payloads, tool-result data). -/
inductive GoVal where
  | vStr : String → GoVal
  | vInt : Int → GoVal
  | vBool : Bool → GoVal
  | vStrList : List String → GoVal
  | vList : List GoVal → GoVal
  | vMap : List (String × GoVal) → GoVal
  | vMapList : List (List (String × GoVal)) → GoVal
  | vNull : GoVal

mutual
/-- Boolean equality on `GoVal`, modelling Go interface equality as used for
the map key test in the `uniqueItems` check (structural equality on the
comparable values that occur in payloads). -/
def beqGoVal : GoVal → GoVal → Bool
  | .vStr a, .vStr b => a == b
  | .vInt a, .vInt b => a == b
  | .vBool a, .vBool b => a == b
  | .vNull, .vNull => true
  | .vStrList a, .vStrList b => a == b
  | .vList a, .vList b => beqGoValList a b
  | .vMap a, .vMap b => beqGoValEntries a b
  | .vMapList a, .vMapList b => beqGoValMaps a b
  | _, _ => false

def beqGoValList : List GoVal → List GoVal → Bool
  | [], [] => true
  | a :: as, b :: bs => beqGoVal a b && beqGoValList as bs
  | _, _ => false

def beqGoValEntries : List (String × GoVal) → List (String × GoVal) → Bool
  | [], [] => true
  | (ka, va) :: as, (kb, vb) :: bs => ka == kb && beqGoVal va vb && beqGoValEntries as bs
  | _, _ => false

def beqGoValMaps : List (List (String × GoVal)) → List (List (String × GoVal)) → Bool
  | [], [] => true
  | a :: as, b :: bs => beqGoValEntries a b && beqGoValMaps as bs
  | _, _ => false
end

/-- Association-list lookup, modelling `m[k]` with the comma-ok idiom on a Go
map (`nil` result modelled as `none`). -/
def lookupKey : List (String × GoVal) → String → Option GoVal
  | [], _ => none
  | (k, v) :: rest, key => if k = key then some v else lookupKey rest key

/-- Go `m[k].(string)` with comma-ok. -/
def getStr (m : List (String × GoVal)) (k : String) : Option String :=
  match lookupKey m k with
  | some (.vStr s) => some s
  | _ => none

/-- Go `m[k].(int)` with comma-ok. -/
def getInt (m : List (String × GoVal)) (k : String) : Option Int :=
  match lookupKey m k with
  | some (.vInt n) => some n
  | _ => none

/-- Go `m[k].(bool)` with comma-ok. -/
def getBool (m : List (String × GoVal)) (k : String) : Option Bool :=
  match lookupKey m k with
  | some (.vBool b) => some b
  | _ => none

/-- Go `m[k].([]string)` with comma-ok. -/
def getStrList (m : List (String × GoVal)) (k : String) : Option (List String) :=
  match lookupKey m k with
  | some (.vStrList l) => some l
  | _ => none

/-- Go `m[k].(map[string]interface\x7b\x7d)` with comma-ok. -/
def getMap (m : List (String × GoVal)) (k : String) : Option (List (String × GoVal)) :=
  match lookupKey m k with
  | some (.vMap mm) => some mm
  | _ => none

/-- Go `m[k].([]map[string]interface\x7b\x7d)` with comma-ok. -/
def getMapList (m : List (String × GoVal)) (k : String) :
    Option (List (List (String × GoVal))) :=
  match lookupKey m k with
  | some (.vMapList ms) => some ms
  | _ => none

mutual
/-- Size measure on `GoVal` used for the termination of the recursive
validator functions. An element obtained by iterating over a Go slice value
(of any of the three slice constructors) is strictly smaller than the slice. -/
def gsize : GoVal → Nat
  | .vStr _ => 1
  | .vInt _ => 1
  | .vBool _ => 1
  | .vNull => 1
  | .vStrList ss => 1 + 2 * ss.length
  | .vList l => 1 + gsizeList l
  | .vMap m => 1 + gsizeEntries m
  | .vMapList ms => 1 + gsizeMaps ms

def gsizeList : List GoVal → Nat
  | [] => 0
  | v :: rest => 1 + gsize v + gsizeList rest

def gsizeEntries : List (String × GoVal) → Nat
  | [] => 0
  | (_, v) :: rest => 1 + gsize v + gsizeEntries rest

def gsizeMaps : List (List (String × GoVal)) → Nat
  | [] => 0
  | m :: rest => 2 + gsizeEntries m + gsizeMaps rest
end

theorem gsizeList_map_vStr (ss : List String) :
    gsizeList (ss.map GoVal.vStr) = 2 * ss.length := by
  induction ss with
  | nil => simp [gsizeList]
  | cons s rest ih => simp [gsizeList, gsize, ih]; ring

theorem gsizeList_map_vMap (ms : List (List (String × GoVal))) :
    gsizeList (ms.map GoVal.vMap) = gsizeMaps ms := by
  induction ms with
  | nil => simp [gsizeList, gsizeMaps]
  | cons m rest ih => simp [gsizeList, gsize, gsizeMaps, ih]; ring

theorem lookupKey_gsize {m : List (String × GoVal)} {k : String} {v : GoVal}
    (h : lookupKey m k = some v) : gsize v < 1 + gsizeEntries m := by
  induction m with
  | nil => simp [lookupKey] at h
  | cons p rest ih =>
      obtain ⟨pk, pv⟩ := p
      by_cases hk : pk = k
      · simp [lookupKey, hk] at h
        subst h
        simp [gsizeEntries]
        omega
      · simp [lookupKey, hk] at h
        have := ih h
        simp [gsizeEntries]
        omega

/-! ## Schema validator (src/internal/validation/validator.go) -/

/-- Wrap a string in single quotes, as the Go format verb %s inside quoted
fmt strings does in the validator messages. -/
def q (s : String) : String := "\x27" ++ s ++ "\x27"

/-- Rendering of a `GoVal` by the Go format verb %v, for the values that
reach validator messages (strings and ints). -/
def govalFmt : GoVal → String
  | .vStr s => s
  | .vInt n => toString n
  | .vBool b => if b then "true" else "false"
  | .vNull => "<nil>"
  | .vStrList l => "[" ++ String.intercalate " " l ++ "]"
  | .vList _ => "[...]"
  | .vMap _ => "map[...]"
  | .vMapList _ => "[...]"

/-- Rendering of a dynamic type by the Go format verb %T, for the dynamic
types of the embedding. -/
def govalTypeName : GoVal → String
  | .vStr _ => "string"
  | .vInt _ => "int"
  | .vBool _ => "bool"
  | .vNull => "<nil>"
  | .vStrList _ => "[]string"
  | .vList _ => "[]interface \x7b\x7d"
  | .vMap _ => "map[string]interface \x7b\x7d"
  | .vMapList _ => "[]map[string]interface \x7b\x7d"

/-- ValidationError (validator.go lines 402-407): Type, Message and Field.
The Field member has Go type `interface\x7b\x7d` but only ever holds `nil` or a
parameter name string, modelled as `Option String`. -/
structure ValidationError where
  type : String
  message : String
  field : Option String
deriving DecidableEq, Repr

/-- NewValidationError (validator.go lines 416-423). -/
def newValidationError (errorType message : String) (field : Option String) : ValidationError :=
  ⟨errorType, message, field⟩

/-- Semantics of the compiled regular expressions used by the validator.
The only pattern string occurring anywhere in ToolSchemas is "^[0-9]+$",
whose Go regexp semantics (a nonempty string of ASCII digits) is embedded
directly; it always compiles, so `getCompiledRegex` never fails on it. Other
pattern strings never occur in the program and are not modelled (`none`).
The pattern cache of the Validator (getCompiledRegex, lines 337-349) only
memoises compilation and is behaviorally transparent, so the embedding is
stateless. -/
def compiledRegexMatch (pattern s : String) : Option Bool :=
  if pattern = "^[0-9]+$" then
    some (decide (s.data ≠ []) && s.data.all fun c => decide ('0' ≤ c) && decide (c ≤ '9'))
  else none

/-- Go `len` on a string is its UTF-8 byte length. -/
def goLen (s : String) : Nat := s.utf8ByteSize

/-- toFloat64 (validator.go lines 368-400) restricted to the dynamic types of
the embedding: every numeric value here is an `int` (the schemas store Go
`int` literals), so the float64 widening is modelled exactly by the integer
itself; the string case of the Go function accepts any ParseFloat-parsable
string, of which only integer-valued ones could reach a comparison, modelled
by `String.toInt?`. -/
def toFloat64 : GoVal → Option Int
  | .vInt n => some n
  | .vStr s => s.toInt?
  | _ => none

/-- getNumericValue (validator.go lines 361-366). -/
def getNumericValue (v : GoVal) : Int := (toFloat64 v).getD 0

/-- isNumeric (validator.go lines 351-354): reflect kinds Int through
Complex128; of the dynamic types occurring in the embedding only `int`
qualifies. -/
def isNumeric : GoVal → Bool
  | .vInt _ => true
  | _ => false

/-- isInteger (validator.go lines 356-359): reflect kinds Int through
Uint64; of the dynamic types occurring in the embedding only `int`
qualifies. -/
def isInteger : GoVal → Bool
  | .vInt _ => true
  | _ => false

/-- Go reflect kind String. -/
def kindIsString : GoVal → Bool
  | .vStr _ => true
  | _ => false

/-- Go reflect kind Slice (all three slice-shaped dynamic types). -/
def kindIsSlice : GoVal → Bool
  | .vList _ => true
  | .vStrList _ => true
  | .vMapList _ => true
  | _ => false

/-- Go reflect kind Map. -/
def kindIsMap : GoVal → Bool
  | .vMap _ => true
  | _ => false

/-- validateRequired (validator.go lines 66-79): if the schema has a
`required` entry of dynamic type []string, every listed name must be present
in the payload; the first missing one produces the error. -/
def validateRequired (schema params : List (String × GoVal)) : Except String Unit :=
  match getStrList schema "required" with
  | none => .ok ()
  | some required => go required
where
  go : List String → Except String Unit
  | [] => .ok ()
  | reqParam :: rest =>
      match lookupKey params reqParam with
      | some _ => go rest
      | none => .error ("required parameter " ++ q reqParam ++ " is missing")

/-- validateType (validator.go lines 125-165). -/
def validateType (paramName : String) (value : GoVal) (schema : List (String × GoVal)) :
    Except ValidationError Unit :=
  match getStr schema "type" with
  | none => .ok ()
  | some expectedType =>
      if value matches .vNull then
        .error (newValidationError "null value"
          ("parameter " ++ q paramName ++ " cannot be null") (some paramName))
      else if expectedType = "string" then
        if kindIsString value then .ok () else
          .error (newValidationError "type mismatch"
            ("parameter " ++ q paramName ++ " must be a string, got " ++ govalTypeName value)
            (some paramName))
      else if expectedType = "integer" then
        if isInteger value then .ok () else
          .error (newValidationError "type mismatch"
            ("parameter " ++ q paramName ++ " must be an integer, got " ++ govalTypeName value)
            (some paramName))
      else if expectedType = "number" then
        if isNumeric value then .ok () else
          .error (newValidationError "type mismatch"
            ("parameter " ++ q paramName ++ " must be a number, got " ++ govalTypeName value)
            (some paramName))
      else if expectedType = "boolean" then
        if value matches .vBool _ then .ok () else
          .error (newValidationError "type mismatch"
            ("parameter " ++ q paramName ++ " must be a boolean, got " ++ govalTypeName value)
            (some paramName))
      else if expectedType = "array" then
        if kindIsSlice value then .ok () else
          .error (newValidationError "type mismatch"
            ("parameter " ++ q paramName ++ " must be an array, got " ++ govalTypeName value)
            (some paramName))
      else if expectedType = "object" then
        if kindIsMap value then .ok () else
          .error (newValidationError "type mismatch"
            ("parameter " ++ q paramName ++ " must be an object, got " ++ govalTypeName value)
            (some paramName))
      else .ok ()

/-- validateString (validator.go lines 168-217): minLength, maxLength,
pattern, enum, in that order. A bound entry of the wrong dynamic type is
ignored, exactly as the comma-ok assertions do. -/
def validateString (paramName value : String) (schema : List (String × GoVal)) :
    Except ValidationError Unit := do
  match getInt schema "minLength" with
  | some minLen =>
      if (goLen value : Int) < minLen then
        throw (newValidationError "length constraint"
          ("parameter " ++ q paramName ++ " must be at least " ++ toString minLen ++
            " characters, got " ++ toString (goLen value)) (some paramName))
  | none => pure ()
  match getInt schema "maxLength" with
  | some maxLen =>
      if (goLen value : Int) > maxLen then
        throw (newValidationError "length constraint"
          ("parameter " ++ q paramName ++ " must be at most " ++ toString maxLen ++
            " characters, got " ++ toString (goLen value)) (some paramName))
  | none => pure ()
  match getStr schema "pattern" with
  | some patternStr =>
      match compiledRegexMatch patternStr value with
      | none =>
          throw (newValidationError "pattern error"
            ("invalid regex pattern for parameter " ++ q paramName) (some paramName))
      | some matched =>
          if !matched then
            throw (newValidationError "pattern mismatch"
              ("parameter " ++ q paramName ++ " does not match required pattern: " ++
                patternStr) (some paramName))
  | none => pure ()
  match getStrList schema "enum" with
  | some enumList =>
      if !enumList.contains value then
        throw (newValidationError "enum constraint"
          ("parameter " ++ q paramName ++ " must be one of: " ++
            govalFmt (.vStrList enumList) ++ ", got " ++ q value) (some paramName))
  | none => pure ()

/-- validateNumeric (validator.go lines 220-242): inclusive minimum and
maximum bounds, compared after the float64 widening. -/
def validateNumeric (paramName : String) (value : GoVal) (schema : List (String × GoVal)) :
    Except ValidationError Unit := do
  let numValue := getNumericValue value
  match lookupKey schema "minimum" with
  | some minV =>
      match toFloat64 minV with
      | some minFloat =>
          if numValue < minFloat then
            throw (newValidationError "range constraint"
              ("parameter " ++ q paramName ++ " must be at least " ++ govalFmt minV ++
                ", got " ++ govalFmt value) (some paramName))
      | none => pure ()
  | none => pure ()
  match lookupKey schema "maximum" with
  | some maxV =>
      match toFloat64 maxV with
      | some maxFloat =>
          if numValue > maxFloat then
            throw (newValidationError "range constraint"
              ("parameter " ++ q paramName ++ " must be at most " ++ govalFmt maxV ++
                ", got " ++ govalFmt value) (some paramName))
      | none => pure ()
  | none => pure ()

/-- validateObject (validator.go lines 296-303): only checks that the value
is map-shaped (nested schemas are not recursed into, as the source notes). -/
def validateObject (paramName : String) (value : GoVal) : Except ValidationError Unit :=
  if kindIsMap value then .ok ()
  else .error (newValidationError "type mismatch"
    ("parameter " ++ q paramName ++ " must be an object") (some paramName))

/-- Elements produced by reflect-based iteration over a Go slice value
(`rv.Index(i).Interface()`), for each slice-shaped dynamic type. -/
def sliceElems : GoVal → List GoVal
  | .vList l => l
  | .vStrList ss => ss.map .vStr
  | .vMapList ms => ms.map .vMap
  | _ => []

/-- Duplicate detection of the `uniqueItems` check (validator.go lines
268-279): a map keyed by the items, reporting the first repeated one. -/
def hasDuplicate (items : List GoVal) : Bool :=
  go [] items
where
  go : List GoVal → List GoVal → Bool
  | _, [] => false
  | seen, item :: rest =>
      if seen.any (beqGoVal item) then true else go (item :: seen) rest

mutual
/-- validateParameter (validator.go lines 82-122): the parameter schema must
be map-shaped, then the type check runs, then the kind-directed constraint
families (string, numeric, array, object) in source order. -/
def validateParameter (paramName : String) (value propSchema : GoVal) :
    Except ValidationError Unit :=
  match propSchema with
  | .vMap schema =>
      match validateType paramName value schema with
      | .error e => .error e
      | .ok () =>
      match (if kindIsString value then
               match value with
               | .vStr s => validateString paramName s schema
               | _ => .ok ()
             else .ok ()) with
      | .error e => .error e
      | .ok () =>
      match (if isNumeric value then validateNumeric paramName value schema else .ok ()) with
      | .error e => .error e
      | .ok () =>
      match (if kindIsSlice value then validateArray paramName value schema else .ok ()) with
      | .error e => .error e
      | .ok () =>
      if kindIsMap value then validateObject paramName value else .ok ()
  | _ =>
      .error (newValidationError "invalid schema"
        ("invalid schema for parameter " ++ q paramName) (some paramName))
termination_by 3 * gsize value + 2
decreasing_by all_goals omega

/-- validateArray (validator.go lines 245-293): item-count bounds, the
uniqueness check, then recursive validation of every item against the
declared item sub-schema with indexed parameter names. -/
def validateArray (paramName : String) (value : GoVal) (schema : List (String × GoVal)) :
    Except ValidationError Unit := do
  let elems := sliceElems value
  let length := elems.length
  match getInt schema "minItems" with
  | some minInt =>
      if (length : Int) < minInt then
        throw (newValidationError "array constraint"
          ("parameter " ++ q paramName ++ " must have at least " ++ toString minInt ++
            " items, got " ++ toString length) (some paramName))
  | none => pure ()
  match getInt schema "maxItems" with
  | some maxInt =>
      if (length : Int) > maxInt then
        throw (newValidationError "array constraint"
          ("parameter " ++ q paramName ++ " must have at most " ++ toString maxInt ++
            " items, got " ++ toString length) (some paramName))
  | none => pure ()
  match getBool schema "uniqueItems" with
  | some uniqueBool =>
      if uniqueBool && hasDuplicate elems then
        throw (newValidationError "uniqueness constraint"
          ("parameter " ++ q paramName ++ " contains duplicate items") (some paramName))
  | none => pure ()
  match lookupKey schema "items" with
  | some itemSchema =>
      have helems : gsizeList (sliceElems value) < gsize value := by
        cases value <;>
          simp [sliceElems, gsize, gsizeList, gsizeList_map_vStr, gsizeList_map_vMap] <;>
          omega
      validateItems paramName (sliceElems value) 0 itemSchema
  | none => pure ()
termination_by 3 * gsize value + 1
decreasing_by all_goals omega

/-- The item loop of validateArray (lines 283-289), carrying the running
index used in the indexed parameter names. -/
def validateItems (paramName : String) (items : List GoVal) (i : Nat) (itemSchema : GoVal) :
    Except ValidationError Unit :=
  match items with
  | [] => .ok ()
  | item :: rest =>
      match validateParameter (paramName ++ "[" ++ toString i ++ "]") item itemSchema with
      | .error e => .error e
      | .ok () => validateItems paramName rest (i + 1) itemSchema
termination_by 3 * gsizeList items + 2
decreasing_by all_goals first | omega | (simp [gsizeList] <;> omega)
end

theorem getMap_gsizeEntries {m : List (String × GoVal)} {k : String}
    {mm : List (String × GoVal)} (h : getMap m k = some mm) :
    gsizeEntries mm < gsizeEntries m := by
  unfold getMap at h
  rcases hl : lookupKey m k with _ | v
  · simp [hl] at h
  · rw [hl] at h
    cases v <;> simp at h
    subst h
    have := lookupKey_gsize hl
    simp [gsize] at this
    omega

/-- validateConditionals (validator.go lines 306-333). The `anyOf` branch is
satisfied as soon as one listed condition passes the required-field check;
the `not` branch recursively evaluates the nested conditionals and fails
when they succeed. Note that the function interprets only `anyOf` and `not`:
an `allOf` entry inside a condition map is never examined, so such a
condition carries no `required` key and its required-field check passes
vacuously. -/
def validateConditionals (schema params : List (String × GoVal)) :
    Except ValidationError Unit := do
  match getMapList schema "anyOf" with
  | some conditions =>
      if !(conditions.any fun condition => validateRequired condition params matches .ok _) then
        throw (newValidationError "conditional constraint"
          "at least one of the specified conditions must be met" none)
  | none => pure ()
  match hnot : getMap schema "not" with
  | some notSchema =>
      if validateConditionals notSchema params matches .ok _ then
        throw (newValidationError "conditional constraint"
          "the specified condition must not be satisfied" none)
  | none => pure ()
termination_by gsizeEntries schema
decreasing_by exact getMap_gsizeEntries hnot

/-- A Go `error` value in the validation pipeline: either a *ValidationError
or a plain error produced by fmt.Errorf. -/
inductive GoErr where
  | vErr : ValidationError → GoErr
  | plain : String → GoErr
deriving DecidableEq, Repr

/-- The per-parameter loop of ValidateToolParams (validator.go lines 45-54):
for each payload field, in iteration order, first the declared-property
check, then the validation of that field; the first failure stops the
loop. -/
def validateParamsLoop (props : List (String × GoVal)) :
    List (String × GoVal) → Except ValidationError Unit
  | [] => .ok ()
  | (paramName, value) :: rest =>
      match lookupKey props paramName with
      | none =>
          .error (newValidationError "unknown parameter"
            ("parameter " ++ q paramName ++ " is not defined") (some paramName))
      | some propSchema =>
          match validateParameter paramName value propSchema with
          | .error e => .error e
          | .ok () => validateParamsLoop props rest

/-- The body of ValidateToolParams after the schema lookup (validator.go
lines 37-62): the required-field check (whose failure is wrapped as a
missing-required-parameter ValidationError and stops everything), then the
single pass over the payload fields (skipped entirely when the schema has no
map-shaped `properties` entry), then the conditional constraints. -/
def validateAgainstSchema (schemaMap params : List (String × GoVal)) :
    Except ValidationError Unit :=
  match validateRequired schemaMap params with
  | .error msg => .error (newValidationError "missing required parameter" msg none)
  | .ok () =>
      match (match getMap schemaMap "properties" with
        | some props => validateParamsLoop props params
        | none => (.ok () : Except ValidationError Unit)) with
      | .error e => .error e
      | .ok () => validateConditionals schemaMap params

/-- ToolSchemas (the schema table of the validation package): the JSON
schemas for all Discord MCP tools, translated entry by entry. Go `int`
literals become `vInt`, `[]string` literals become `vStrList`, nested
`map[string]interface\x7b\x7d` literals become `vMap`, and the condition lists of
`anyOf`/`allOf` (Go `[]map[string]interface\x7b\x7d`) become `vMapList`. -/
def ToolSchemas : List (String × GoVal) := [
  ("send_message", .vMap [
    ("type", .vStr "object"),
    ("properties", .vMap [
      ("channel_id", .vMap [
        ("type", .vStr "string"),
        ("pattern", .vStr "^[0-9]+$"),
        ("minLength", .vInt 1),
        ("description", .vStr "Discord channel ID (snowflake)")]),
      ("content", .vMap [
        ("type", .vStr "string"),
        ("minLength", .vInt 1),
        ("maxLength", .vInt 2000),
        ("description", .vStr "Message content (Discord markdown supported)")]),
      ("tts", .vMap [
        ("type", .vStr "boolean"),
        ("default", .vBool false),
        ("description", .vStr "Whether message should be read aloud using TTS")]),
      ("reply_to", .vMap [
        ("type", .vStr "string"),
        ("pattern", .vStr "^[0-9]+$"),
        ("description", .vStr "Message ID to reply to")]),
      ("embeds", .vMap [
        ("type", .vStr "array"),
        ("maxItems", .vInt 10),
        ("description", .vStr "Array of embed objects"),
        ("items", .vMap [
          ("type", .vStr "object"),
          ("properties", .vMap [
            ("title", .vMap [
              ("type", .vStr "string"),
              ("maxLength", .vInt 256)]),
            ("description", .vMap [
              ("type", .vStr "string"),
              ("maxLength", .vInt 4096)]),
            ("color", .vMap [
              ("type", .vStr "integer"),
              ("minimum", .vInt 0),
              ("maximum", .vInt 16777215)]),
            ("url", .vMap [
              ("type", .vStr "string"),
              ("format", .vStr "uri")]),
            ("thumbnail", .vMap [
              ("type", .vStr "object"),
              ("properties", .vMap [
                ("url", .vMap [
                  ("type", .vStr "string"),
                  ("format", .vStr "uri")])]),
              ("required", .vStrList ["url"])]),
            ("image", .vMap [
              ("type", .vStr "object"),
              ("properties", .vMap [
                ("url", .vMap [
                  ("type", .vStr "string"),
                  ("format", .vStr "uri")])]),
              ("required", .vStrList ["url"])]),
            ("fields", .vMap [
              ("type", .vStr "array"),
              ("maxItems", .vInt 25),
              ("items", .vMap [
                ("type", .vStr "object"),
                ("properties", .vMap [
                  ("name", .vMap [
                    ("type", .vStr "string"),
                    ("maxLength", .vInt 256)]),
                  ("value", .vMap [
                    ("type", .vStr "string"),
                    ("maxLength", .vInt 1024)]),
                  ("inline", .vMap [
                    ("type", .vStr "boolean"),
                    ("default", .vBool false)])]),
                ("required", .vStrList ["name", "value"])])])])])])]),
    ("required", .vStrList ["channel_id", "content"])]),
  ("get_channel_messages", .vMap [
    ("type", .vStr "object"),
    ("properties", .vMap [
      ("channel_id", .vMap [
        ("type", .vStr "string"),
        ("pattern", .vStr "^[0-9]+$"),
        ("description", .vStr "Discord channel ID (snowflake)")]),
      ("limit", .vMap [
        ("type", .vStr "integer"),
        ("minimum", .vInt 1),
        ("maximum", .vInt 100),
        ("default", .vInt 50),
        ("description", .vStr "Number of messages to retrieve (1-100)")]),
      ("before", .vMap [
        ("type", .vStr "string"),
        ("pattern", .vStr "^[0-9]+$"),
        ("description", .vStr "Get messages before this message ID")]),
      ("after", .vMap [
        ("type", .vStr "string"),
        ("pattern", .vStr "^[0-9]+$"),
        ("description", .vStr "Get messages after this message ID")]),
      ("around", .vMap [
        ("type", .vStr "string"),
        ("pattern", .vStr "^[0-9]+$"),
        ("description", .vStr "Get messages around this message ID")])]),
    ("required", .vStrList ["channel_id"]),
    ("not", .vMap [
      ("anyOf", .vMapList [
        [("allOf", .vMapList [
          [("required", .vStrList ["before"])],
          [("required", .vStrList ["after"])]])],
        [("allOf", .vMapList [
          [("required", .vStrList ["before"])],
          [("required", .vStrList ["around"])]])],
        [("allOf", .vMapList [
          [("required", .vStrList ["after"])],
          [("required", .vStrList ["around"])]])]])])]),
  ("edit_message", .vMap [
    ("type", .vStr "object"),
    ("properties", .vMap [
      ("channel_id", .vMap [
        ("type", .vStr "string"),
        ("pattern", .vStr "^[0-9]+$"),
        ("description", .vStr "Discord channel ID (snowflake)")]),
      ("message_id", .vMap [
        ("type", .vStr "string"),
        ("pattern", .vStr "^[0-9]+$"),
        ("description", .vStr "Message ID to edit")]),
      ("content", .vMap [
        ("type", .vStr "string"),
        ("maxLength", .vInt 2000),
        ("description", .vStr "New message content")]),
      ("embeds", .vMap [
        ("type", .vStr "array"),
        ("maxItems", .vInt 10),
        ("description", .vStr "New embed objects")])]),
    ("required", .vStrList ["channel_id", "message_id"]),
    ("anyOf", .vMapList [
      [("required", .vStrList ["content"])],
      [("required", .vStrList ["embeds"])]])]),
  ("delete_message", .vMap [
    ("type", .vStr "object"),
    ("properties", .vMap [
      ("channel_id", .vMap [
        ("type", .vStr "string"),
        ("pattern", .vStr "^[0-9]+$"),
        ("description", .vStr "Discord channel ID (snowflake)")]),
      ("message_id", .vMap [
        ("type", .vStr "string"),
        ("pattern", .vStr "^[0-9]+$"),
        ("description", .vStr "Message ID to delete")]),
      ("reason", .vMap [
        ("type", .vStr "string"),
        ("maxLength", .vInt 512),
        ("description", .vStr "Reason for deletion (appears in audit log)")])]),
    ("required", .vStrList ["channel_id", "message_id"])]),
  ("add_reaction", .vMap [
    ("type", .vStr "object"),
    ("properties", .vMap [
      ("channel_id", .vMap [
        ("type", .vStr "string"),
        ("pattern", .vStr "^[0-9]+$"),
        ("description", .vStr "Discord channel ID (snowflake)")]),
      ("message_id", .vMap [
        ("type", .vStr "string"),
        ("pattern", .vStr "^[0-9]+$"),
        ("description", .vStr "Message ID to react to")]),
      ("emoji", .vMap [
        ("type", .vStr "string"),
        ("description", .vStr "Emoji to add (Unicode emoji or custom emoji format)")])]),
    ("required", .vStrList ["channel_id", "message_id", "emoji"])]),
  ("list_channels", .vMap [
    ("type", .vStr "object"),
    ("properties", .vMap [
      ("guild_id", .vMap [
        ("type", .vStr "string"),
        ("pattern", .vStr "^[0-9]+$"),
        ("description", .vStr "Guild (server) ID to list channels from")]),
      ("type_filter", .vMap [
        ("type", .vStr "array"),
        ("description", .vStr "Filter channels by type"),
        ("items", .vMap [
          ("type", .vStr "string"),
          ("enum", .vStrList ["text", "voice", "category", "announcement", "stage",
            "forum", "media"])]),
        ("uniqueItems", .vBool true)]),
      ("include_permissions", .vMap [
        ("type", .vStr "boolean"),
        ("default", .vBool false),
        ("description", .vStr "Include bot permissions for each channel")])]),
    ("required", .vStrList ["guild_id"])]),
  ("get_channel_info", .vMap [
    ("type", .vStr "object"),
    ("properties", .vMap [
      ("channel_id", .vMap [
        ("type", .vStr "string"),
        ("pattern", .vStr "^[0-9]+$"),
        ("description", .vStr "Discord channel ID (snowflake)")]),
      ("include_permissions", .vMap [
        ("type", .vStr "boolean"),
        ("default", .vBool true),
        ("description", .vStr "Include bot permissions for this channel")])]),
    ("required", .vStrList ["channel_id"])]),
  ("get_guild_info", .vMap [
    ("type", .vStr "object"),
    ("properties", .vMap [
      ("guild_id", .vMap [
        ("type", .vStr "string"),
        ("pattern", .vStr "^[0-9]+$"),
        ("description", .vStr "Guild (server) ID")]),
      ("include_counts", .vMap [
        ("type", .vStr "boolean"),
        ("default", .vBool true),
        ("description", .vStr "Include member and channel counts")])]),
    ("required", .vStrList ["guild_id"])]),
  ("list_guild_members", .vMap [
    ("type", .vStr "object"),
    ("properties", .vMap [
      ("guild_id", .vMap [
        ("type", .vStr "string"),
        ("pattern", .vStr "^[0-9]+$"),
        ("description", .vStr "Guild (server) ID")])]),
    ("required", .vStrList ["guild_id"])]),
  ("get_role_info", .vMap [
    ("type", .vStr "object"),
    ("properties", .vMap [
      ("guild_id", .vMap [
        ("type", .vStr "string"),
        ("pattern", .vStr "^[0-9]+$"),
        ("description", .vStr "Guild (server) ID")]),
      ("role_id", .vMap [
        ("type", .vStr "string"),
        ("pattern", .vStr "^[0-9]+$"),
        ("description", .vStr "Role ID")])]),
    ("required", .vStrList ["guild_id", "role_id"])]),
  ("create_role", .vMap [
    ("type", .vStr "object"),
    ("properties", .vMap [
      ("guild_id", .vMap [
        ("type", .vStr "string"),
        ("pattern", .vStr "^[0-9]+$"),
        ("description", .vStr "Guild (server) ID")]),
      ("name", .vMap [
        ("type", .vStr "string"),
        ("description", .vStr "Name of the new role")])]),
    ("required", .vStrList ["guild_id", "name"])]),
  ("delete_role", .vMap [
    ("type", .vStr "object"),
    ("properties", .vMap [
      ("guild_id", .vMap [
        ("type", .vStr "string"),
        ("pattern", .vStr "^[0-9]+$"),
        ("description", .vStr "Guild (server) ID")]),
      ("role_id", .vMap [
        ("type", .vStr "string"),
        ("pattern", .vStr "^[0-9]+$"),
        ("description", .vStr "Role ID to delete")])]),
    ("required", .vStrList ["guild_id", "role_id"])]),
  ("assign_role", .vMap [
    ("type", .vStr "object"),
    ("properties", .vMap [
      ("guild_id", .vMap [
        ("type", .vStr "string"),
        ("pattern", .vStr "^[0-9]+$"),
        ("description", .vStr "Guild (server) ID")]),
      ("role_id", .vMap [
        ("type", .vStr "string"),
        ("pattern", .vStr "^[0-9]+$"),
        ("description", .vStr "Role ID to assign")]),
      ("user_id", .vMap [
        ("type", .vStr "string"),
        ("pattern", .vStr "^[0-9]+$"),
        ("description", .vStr "User ID to assign the role to")])]),
    ("required", .vStrList ["guild_id", "role_id", "user_id"])]),
  ("unassign_role", .vMap [
    ("type", .vStr "object"),
    ("properties", .vMap [
      ("guild_id", .vMap [
        ("type", .vStr "string"),
        ("pattern", .vStr "^[0-9]+$"),
        ("description", .vStr "Guild (server) ID")]),
      ("role_id", .vMap [
        ("type", .vStr "string"),
        ("pattern", .vStr "^[0-9]+$"),
        ("description", .vStr "Role ID to unassign")]),
      ("user_id", .vMap [
        ("type", .vStr "string"),
        ("pattern", .vStr "^[0-9]+$"),
        ("description", .vStr "User ID to unassign the role from")])]),
    ("required", .vStrList ["guild_id", "role_id", "user_id"])]),
  ("list_roles", .vMap [
    ("type", .vStr "object"),
    ("properties", .vMap [
      ("guild_id", .vMap [
        ("type", .vStr "string"),
        ("pattern", .vStr "^[0-9]+$"),
        ("description", .vStr "Guild (server) ID to list roles from")])]),
    ("required", .vStrList ["guild_id"])])]

/-- GetToolSchema: lookup in the ToolSchemas table with comma-ok. -/
def getToolSchema (toolName : String) : Option GoVal :=
  lookupKey ToolSchemas toolName

/-- ValidateToolParams (validator.go lines 26-63): resolve the schema of the
named tool, require it to be map-shaped, then run the required-field check,
the per-field pass and the conditional constraints. The resulting error is
either a ValidationError or a plain fmt.Errorf error. -/
def validateToolParams (toolName : String) (params : List (String × GoVal)) :
    Except GoErr Unit :=
  match getToolSchema toolName with
  | none => .error (.plain ("no schema found for tool: " ++ toolName))
  | some schema =>
      match schema with
      | .vMap schemaMap =>
          match validateAgainstSchema schemaMap params with
          | .error e => .error (.vErr e)
          | .ok () => .ok ()
      | _ => .error (.plain ("invalid schema format for tool: " ++ toolName))

/-! ## Permission gate (src/internal/permissions/checker.go)

The Discord client (internal/discord, a thin wrapper over the discordgo
session) is the external remote-service collaborator; its fetch and mutate
operations are modelled as an oracle structure `DiscordEnv` whose fields
return either a result or a remote error string, following the collaborator
contract of the specification. Permission bitmasks are the non-negative
discordgo int64 permission constants, modelled as natural numbers. -/

def permissionAddReactions : Nat := 1 <<< 6
def permissionViewChannel : Nat := 1 <<< 10
def permissionSendMessages : Nat := 1 <<< 11
def permissionSendTTSMessages : Nat := 1 <<< 12
def permissionManageMessages : Nat := 1 <<< 13
def permissionEmbedLinks : Nat := 1 <<< 14
def permissionAttachFiles : Nat := 1 <<< 15
def permissionReadMessageHistory : Nat := 1 <<< 16
def permissionMentionEveryone : Nat := 1 <<< 17
def permissionUseExternalEmojis : Nat := 1 <<< 18
def permissionManageRoles : Nat := 1 <<< 28

/-- The bot user returned by discord.Client.GetBotUser. -/
structure BotUser where
  id : String
  username : String
  discriminator : String

/-- A discordgo channel, restricted to the members the program reads. -/
structure ChannelData where
  id : String
  name : String
  ctype : Int
  position : Int
  nsfw : Bool
  parentID : String
  guildID : String
  topic : String
  lastMessageID : String

/-- A discordgo guild, restricted to the members the program reads. -/
structure GuildData where
  id : String
  name : String
  description : String
  icon : String
  splash : String
  banner : String
  ownerID : String
  memberCount : Int

/-- A discordgo role, restricted to the members the program reads. -/
structure RoleData where
  id : String
  name : String
  color : Int
  hoist : Bool
  position : Int
  permissions : Nat
  managed : Bool
  mentionable : Bool

/-- A discordgo user, restricted to the members the program reads. -/
structure UserData where
  id : String
  username : String
  discriminator : String
  avatar : String
  bot : Bool

/-- A discordgo guild member, restricted to the members the program reads.
Time members are carried as their RFC3339 renderings, the only use the
program makes of them. -/
structure MemberData where
  user : UserData
  nick : String
  roles : List String
  joinedAt : String
  deaf : Bool
  mute : Bool

/-- A discordgo message attachment, restricted to the members read. -/
structure AttachmentData where
  id : String
  filename : String
  size : Int
  url : String
  width : Int
  height : Int

/-- A field of a discordgo message embed. -/
structure EmbedFieldData where
  name : String
  value : String
  inline : Bool

/-- A discordgo message embed, restricted to the members the program reads;
the thumbnail and image pointers are carried as their URLs. -/
structure EmbedData where
  title : String
  description : String
  color : Int
  url : String
  thumbnailURL : Option String
  imageURL : Option String
  fields : List EmbedFieldData

/-- A reaction summary on a discordgo message. -/
structure ReactionData where
  emojiName : String
  emojiID : String
  count : Int
  me : Bool

/-- A discordgo message, restricted to the members the program reads; the
Timestamp and EditedTimestamp members are carried as their RFC3339
renderings, and `edited` models `EditedTimestamp != nil`. -/
structure MessageData where
  id : String
  content : String
  author : UserData
  timestamp : String
  edited : Bool
  editedTimestamp : String
  tts : Bool
  mentionEveryone : Bool
  pinned : Bool
  mentions : List UserData
  attachments : List AttachmentData
  embeds : List EmbedData
  reactions : List ReactionData
  mtype : Int
  flags : Int
  guildID : String
  channelID : String

/-- The embed structure assembled by parseEmbed for outgoing messages
(discordgo.MessageEmbed); the Fields slice is nil unless a fields key was
present. -/
structure MessageEmbed where
  title : String
  description : String
  color : Int
  url : String
  thumbnailURL : Option String
  imageURL : Option String
  fields : Option (List EmbedFieldData)

/-- The discordgo.MessageSend payload assembled by SendMessageTool; the
reply reference is carried as the two identifier strings (empty when no
reference was attached). -/
structure MessageSendData where
  content : String
  tts : Bool
  embeds : List MessageEmbed
  referenceMessageID : String
  referenceChannelID : String

/-- The discordgo.MessageEdit payload assembled by EditMessageTool. -/
structure MessageEditData where
  content : String
  id : String
  channel : String
  embeds : Option (List MessageEmbed)

/-- Oracle for the remote Discord service (the excluded external
collaborator): every field models one fetch or mutate operation of the
discord client or the discordgo session, returning either a value or a
remote error string. The State.Member / GuildMember fallback of
getBotGuildPermissions is collapsed into the single `memberRoles` fetch, and
time formatting is carried as preformatted strings. -/
structure DiscordEnv where
  getBotUser : Except String BotUser
  channel : String → Except String ChannelData
  userChannelPermissions : String → String → Except String Nat
  getGuild : String → Except String (Option GuildData)
  channelMessage : String → String → Except String MessageData
  memberRoles : String → String → Except String (List String)
  stateRole : String → String → Except String RoleData
  sendComplex : String → MessageSendData → Except String MessageData
  editComplex : MessageEditData → Except String MessageData
  deleteMessage : String → String → Except String Unit
  messageReactionAdd : String → String → String → Except String Unit
  channelMessages : String → Int → String → String → String → Except String (List MessageData)
  getChannels : String → Except String (List ChannelData)
  guildRoles : String → Except String (List RoleData)
  guildRoleCreate : String → String → Except String RoleData
  guildRoleDelete : String → String → Except String Unit
  guildMemberRoleAdd : String → String → String → Except String Unit
  guildMemberRoleRemove : String → String → String → Except String Unit
  guildMembers : String → Except String (List MemberData)
  pingDiscord : Except String Unit
  isConnected : Bool
  pingDuration : String
  nowFormatted : String

/-- PermissionError (checker.go lines 28-33). -/
structure PermissionError where
  operation : String
  permission : String
  resource : String
  description : String
deriving DecidableEq, Repr

/-- NewPermissionError (checker.go lines 41-48). -/
def newPermissionError (operation permission resource description : String) :
    PermissionError :=
  ⟨operation, permission, resource, description⟩

/-- PermissionError.Error (checker.go lines 35-38). -/
def permissionErrorString (e : PermissionError) : String :=
  "insufficient permissions for " ++ e.operation ++ " on " ++ e.resource ++
    ": missing " ++ e.permission ++ " (" ++ e.description ++ ")"

/-- A Go `error` value in the permission pipeline: either a
*PermissionError or a plain wrapped error. -/
inductive CheckErr where
  | perm : PermissionError → CheckErr
  | plain : String → CheckErr
deriving DecidableEq, Repr

/-- getChannelInfo (checker.go lines 325-331). -/
def getChannelInfoChk (env : DiscordEnv) (channelID : String) :
    Except CheckErr ChannelData :=
  match env.channel channelID with
  | .error e => .error (.plain ("failed to get channel info: " ++ e))
  | .ok c => .ok c

/-- getMessageInfo (checker.go lines 334-340). -/
def getMessageInfoChk (env : DiscordEnv) (channelID messageID : String) :
    Except CheckErr MessageData :=
  match env.channelMessage channelID messageID with
  | .error e => .error (.plain ("failed to get message info: " ++ e))
  | .ok m => .ok m

/-- getUserChannelPermissions (checker.go lines 298-322): resolve the bot
user and the channel; a DM channel (empty guild) receives the fixed baseline
mask, otherwise the aggregated channel permissions are fetched. -/
def getUserChannelPermissionsChk (env : DiscordEnv) (channelID : String) :
    Except CheckErr Nat :=
  match env.getBotUser with
  | .error e => .error (.plain ("failed to get bot user: " ++ e))
  | .ok botUser =>
      match getChannelInfoChk env channelID with
      | .error e => .error e
      | .ok channel =>
          if channel.guildID = "" then
            .ok (permissionSendMessages ||| permissionReadMessageHistory |||
              permissionAddReactions)
          else
            match env.userChannelPermissions botUser.id channelID with
            | .error e => .error (.plain ("failed to get channel permissions: " ++ e))
            | .ok permissions => .ok permissions

/-- CanSendMessages (checker.go lines 71-84). -/
def canSendMessages (env : DiscordEnv) (channelID : String) : Except CheckErr Unit := do
  let permissions ← getUserChannelPermissionsChk env channelID
  if permissions &&& permissionSendMessages = 0 then
    throw (.perm (newPermissionError "send_message" "SEND_MESSAGES"
      ("channel:" ++ channelID) "Bot cannot send messages to this channel"))

/-- CanSendTTSMessages (checker.go lines 87-100). -/
def canSendTTSMessages (env : DiscordEnv) (channelID : String) : Except CheckErr Unit := do
  let permissions ← getUserChannelPermissionsChk env channelID
  if permissions &&& permissionSendTTSMessages = 0 then
    throw (.perm (newPermissionError "send_tts_message" "SEND_TTS_MESSAGES"
      ("channel:" ++ channelID) "Bot cannot send TTS messages to this channel"))

/-- CanReadMessageHistory (checker.go lines 103-116). -/
def canReadMessageHistory (env : DiscordEnv) (channelID : String) : Except CheckErr Unit := do
  let permissions ← getUserChannelPermissionsChk env channelID
  if permissions &&& permissionReadMessageHistory = 0 then
    throw (.perm (newPermissionError "read_messages" "READ_MESSAGE_HISTORY"
      ("channel:" ++ channelID) "Bot cannot read message history in this channel"))

/-- CanManageMessages (checker.go lines 119-132). -/
def canManageMessages (env : DiscordEnv) (channelID : String) : Except CheckErr Unit := do
  let permissions ← getUserChannelPermissionsChk env channelID
  if permissions &&& permissionManageMessages = 0 then
    throw (.perm (newPermissionError "manage_messages" "MANAGE_MESSAGES"
      ("channel:" ++ channelID) "Bot cannot manage messages in this channel"))

/-- CanAddReactions (checker.go lines 135-148). -/
def canAddReactions (env : DiscordEnv) (channelID : String) : Except CheckErr Unit := do
  let permissions ← getUserChannelPermissionsChk env channelID
  if permissions &&& permissionAddReactions = 0 then
    throw (.perm (newPermissionError "add_reaction" "ADD_REACTIONS"
      ("channel:" ++ channelID) "Bot cannot add reactions in this channel"))

/-- CanUseExternalEmojis (checker.go lines 151-164). -/
def canUseExternalEmojis (env : DiscordEnv) (channelID : String) : Except CheckErr Unit := do
  let permissions ← getUserChannelPermissionsChk env channelID
  if permissions &&& permissionUseExternalEmojis = 0 then
    throw (.perm (newPermissionError "use_external_emoji" "USE_EXTERNAL_EMOJIS"
      ("channel:" ++ channelID) "Bot cannot use external emojis in this channel"))

/-- CanViewChannel (checker.go lines 167-180). -/
def canViewChannel (env : DiscordEnv) (channelID : String) : Except CheckErr Unit := do
  let permissions ← getUserChannelPermissionsChk env channelID
  if permissions &&& permissionViewChannel = 0 then
    throw (.perm (newPermissionError "view_channel" "VIEW_CHANNEL"
      ("channel:" ++ channelID) "Bot cannot view this channel"))

/-- CanViewGuild (checker.go lines 185-201): a fetch error or an absent
guild each produce a GUILD_ACCESS permission error. -/
def canViewGuild (env : DiscordEnv) (guildID : String) : Except CheckErr Unit :=
  match env.getGuild guildID with
  | .error _ =>
      .error (.perm (newPermissionError "view_guild" "GUILD_ACCESS"
        ("guild:" ++ guildID) "Bot does not have access to this guild"))
  | .ok none =>
      .error (.perm (newPermissionError "view_guild" "GUILD_ACCESS"
        ("guild:" ++ guildID) "Guild not found or bot not a member"))
  | .ok (some _) => .ok ()

/-- The role-permission union loop of getBotGuildPermissions (checker.go
lines 362-369). -/
def unionRolePermissions (env : DiscordEnv) (guildID : String) :
    List String → Nat → Except CheckErr Nat
  | [], acc => .ok acc
  | roleID :: rest, acc =>
      match env.stateRole guildID roleID with
      | .error e => .error (.plain ("failed to get role info: " ++ e))
      | .ok role => unionRolePermissions env guildID rest (acc ||| role.permissions)

/-- getBotGuildPermissions (checker.go lines 343-372): bot user, guild
membership, then the bitwise union of the permissions of every role the bot
holds in the guild. -/
def getBotGuildPermissions (env : DiscordEnv) (guildID : String) : Except CheckErr Nat :=
  match env.getBotUser with
  | .error e => .error (.plain ("failed to get bot user: " ++ e))
  | .ok botUser =>
      match env.getGuild guildID with
      | .error e => .error (.plain e)
      | .ok _ =>
          match env.memberRoles guildID botUser.id with
          | .error e => .error (.plain ("failed to get bot member info: " ++ e))
          | .ok roles => unionRolePermissions env guildID roles 0

/-- CanManageRoles (checker.go lines 204-217). -/
def canManageRoles (env : DiscordEnv) (guildID : String) : Except CheckErr Unit := do
  let permissions ← getBotGuildPermissions env guildID
  if permissions &&& permissionManageRoles = 0 then
    throw (.perm (newPermissionError "manage_roles" "MANAGE_ROLES"
      ("guild:" ++ guildID) "Bot cannot manage roles in this guild"))

/-- CanEditMessage (checker.go lines 222-259): the ownership-conditional
rule. The resolved channel mask is fetched first, then the target message
and the bot identity; the bot editing its own message needs only
SEND_MESSAGES, while editing another user needs MANAGE_MESSAGES. -/
def canEditMessage (env : DiscordEnv) (channelID messageID : String) :
    Except CheckErr Unit := do
  let permissions ← getUserChannelPermissionsChk env channelID
  let message ← getMessageInfoChk env channelID messageID
  let botUser ←
    match env.getBotUser with
    | .error e => throw (CheckErr.plain ("failed to get bot user info: " ++ e))
    | .ok u => pure u
  if message.author.id = botUser.id then
    if permissions &&& permissionSendMessages = 0 then
      throw (.perm (newPermissionError "edit_own_message" "SEND_MESSAGES"
        ("message:" ++ messageID)
        "Bot cannot edit its own messages without SEND_MESSAGES permission"))
  else
    if permissions &&& permissionManageMessages = 0 then
      throw (.perm (newPermissionError "edit_others_message" "MANAGE_MESSAGES"
        ("message:" ++ messageID)
        "Bot cannot edit other users\x27 messages without MANAGE_MESSAGES permission"))

/-- CanDeleteMessage (checker.go lines 262-293): the bot may always delete
its own message; deleting another user needs MANAGE_MESSAGES. -/
def canDeleteMessage (env : DiscordEnv) (channelID messageID : String) :
    Except CheckErr Unit := do
  let permissions ← getUserChannelPermissionsChk env channelID
  let message ← getMessageInfoChk env channelID messageID
  let botUser ←
    match env.getBotUser with
    | .error e => throw (CheckErr.plain ("failed to get bot user info: " ++ e))
    | .ok u => pure u
  if message.author.id = botUser.id then
    pure ()
  else
    if permissions &&& permissionManageMessages = 0 then
      throw (.perm (newPermissionError "delete_others_message" "MANAGE_MESSAGES"
        ("message:" ++ messageID)
        "Bot cannot delete other users\x27 messages without MANAGE_MESSAGES permission"))

/-- GetChannelPermissions (checker.go lines 375-393): the fixed-shape map of
named capability booleans for a channel. -/
def getChannelPermissionsChk (env : DiscordEnv) (channelID : String) :
    Except CheckErr (List (String × Bool)) := do
  let permissions ← getUserChannelPermissionsChk env channelID
  pure [
    ("view_channel", permissions &&& permissionViewChannel ≠ 0),
    ("send_messages", permissions &&& permissionSendMessages ≠ 0),
    ("send_tts_messages", permissions &&& permissionSendTTSMessages ≠ 0),
    ("manage_messages", permissions &&& permissionManageMessages ≠ 0),
    ("read_message_history", permissions &&& permissionReadMessageHistory ≠ 0),
    ("add_reactions", permissions &&& permissionAddReactions ≠ 0),
    ("use_external_emojis", permissions &&& permissionUseExternalEmojis ≠ 0),
    ("attach_files", permissions &&& permissionAttachFiles ≠ 0),
    ("embed_links", permissions &&& permissionEmbedLinks ≠ 0),
    ("mention_everyone", permissions &&& permissionMentionEveryone ≠ 0)]

/-- isExternalEmoji (checker.go lines 460-463). The length and the first and
last byte tests are carried out on the character list; the two verdicts
agree because the tested delimiters are single-byte characters. -/
def isExternalEmoji (emoji : String) : Bool :=
  emoji.data.length > 2 && emoji.data.head? == some '<' && emoji.data.getLast? == some '>'

/-- ValidateMessageOperation (checker.go lines 396-457): the view-channel
check, then the operation-specific checks. An unknown operation is only
logged. -/
def validateMessageOperation (env : DiscordEnv) (operation channelID : String)
    (extraData : List (String × GoVal)) : Except CheckErr Unit := do
  canViewChannel env channelID
  if operation = "send_message" then do
    canSendMessages env channelID
    match getBool extraData "tts" with
    | some tts => if tts then canSendTTSMessages env channelID
    | none => pure ()
  else if operation = "get_messages" then
    canReadMessageHistory env channelID
  else if operation = "edit_message" then
    match getStr extraData "message_id" with
    | some messageID => canEditMessage env channelID messageID
    | none =>
        throw (.perm (newPermissionError "edit_message" "MESSAGE_ID_REQUIRED"
          channelID "Message ID is required for edit operations"))
  else if operation = "delete_message" then
    match getStr extraData "message_id" with
    | some messageID => canDeleteMessage env channelID messageID
    | none =>
        throw (.perm (newPermissionError "delete_message" "MESSAGE_ID_REQUIRED"
          channelID "Message ID is required for delete operations"))
  else if operation = "add_reaction" then do
    canAddReactions env channelID
    match getStr extraData "emoji" with
    | some emoji => if isExternalEmoji emoji then canUseExternalEmojis env channelID
    | none => pure ()
  else
    pure ()

/-! ## MCP result types (src/pkg/types/mcp.go) and error formatting -/

/-- Content (mcp.go lines 110-114). -/
structure Content where
  type : String
  text : String
  data : Option GoVal

/-- CallToolResult (mcp.go lines 104-107). -/
structure CallToolResult where
  content : List Content
  isError : Bool

/-- CallToolParams (mcp.go lines 98-101). -/
structure CallToolParams where
  name : String
  arguments : List (String × GoVal)

/-- Tool (mcp.go lines 86-90). -/
structure Tool where
  name : String
  description : String
  inputSchema : GoVal

/-- FormatValidationError (validator.go lines 426-449): a validation failure
becomes a successful tool result carrying isError and the structured
error-type / message / field payload; a non-ValidationError error is wrapped
with type "validation". -/
def formatValidationError (err : GoErr) : CallToolResult :=
  let validationErr : ValidationError :=
    match err with
    | .vErr ve => ve
    | .plain msg => { type := "validation", message := msg, field := none }
  { content := [{
      type := "text"
      text := "❌ Validation Error: " ++ validationErr.message
      data := some (.vMap [
        ("error_type", .vStr validationErr.type),
        ("message", .vStr validationErr.message),
        ("field", match validationErr.field with
          | some f => .vStr f
          | none => .vNull)]) }]
    isError := true }

/-- FormatPermissionError (checker.go lines 51-66): a permission failure
becomes a successful tool result carrying isError and the structured
operation / permission / resource / description payload. -/
def formatPermissionError (e : PermissionError) : CallToolResult :=
  { content := [{
      type := "text"
      text := "🔒 Permission Error: " ++ e.description
      data := some (.vMap [
        ("error_type", .vStr "permission"),
        ("operation", .vStr e.operation),
        ("permission", .vStr e.permission),
        ("resource", .vStr e.resource),
        ("description", .vStr e.description)]) }]
    isError := true }

/-- The formatError helper declared identically on every tool type: a
remote-service failure becomes a successful tool result with isError and a
discord_api payload. -/
def formatErrorResult (message errMsg : String) : CallToolResult :=
  { content := [{
      type := "text"
      text := "❌ " ++ message ++ ": " ++ errMsg
      data := some (.vMap [
        ("error_type", .vStr "discord_api"),
        ("message", .vStr message),
        ("details", .vStr errMsg)]) }]
    isError := true }

/-- GetToolDefinition (of the validation package): the registered tool
definition carries the schema from ToolSchemas, or a basic empty schema when
the table has no entry. -/
def getToolDefinition (toolName description : String) : Tool :=
  match getToolSchema toolName with
  | some schema => { name := toolName, description := description, inputSchema := schema }
  | none =>
      { name := toolName, description := description,
        inputSchema := .vMap [
          ("type", .vStr "object"),
          ("properties", .vMap []),
          ("required", .vStrList [])] }

/-! ## Tool handlers (src/internal/handlers and companion files)

Every Execute method follows the same pipeline: parameter validation first
(a failure is returned as a formatted validation result and nothing else
runs), then the permission gate, then the remote operation and the success
formatting. The unchecked Go type assertions on already-validated arguments
(such as `args["channel_id"].(string)`) are modelled by the comma-ok
accessors with the zero value as default; validation guarantees the default
is never taken on the paths where the assertion occurs. Every Execute
returns a nil Go error; the pair mirrors the (CallToolResult, error)
signature. -/

/-- The fields loop of parseEmbed (part of the handlers package). -/
def parseEmbedFields : List GoVal → Nat → Except String (List EmbedFieldData)
  | [], _ => .ok []
  | fieldData :: rest, i =>
      match fieldData with
      | .vMap fieldMap =>
          match parseEmbedFields rest (i + 1) with
          | .error e => .error e
          | .ok tail =>
              .ok ({ name := (getStr fieldMap "name").getD "",
                     value := (getStr fieldMap "value").getD "",
                     inline := (getBool fieldMap "inline").getD false } :: tail)
      | _ => .error ("field at index " ++ toString i ++ " must be an object")

/-- parseEmbed (the handlers package): converts a dynamic embed payload into
a discordgo.MessageEmbed, with optional members defaulting to zero values
and a non-object fields element failing. -/
def parseEmbed (embedData : GoVal) : Except String MessageEmbed :=
  match embedData with
  | .vMap embedMap =>
      let fieldsResult : Except String (Option (List EmbedFieldData)) :=
        match lookupKey embedMap "fields" with
        | some (.vList fields) =>
            match parseEmbedFields fields 0 with
            | .error e => .error e
            | .ok fs => .ok (some fs)
        | _ => .ok none
      match fieldsResult with
      | .error e => .error e
      | .ok fields =>
          .ok {
            title := (getStr embedMap "title").getD "",
            description := (getStr embedMap "description").getD "",
            color := (getInt embedMap "color").getD 0,
            url := (getStr embedMap "url").getD "",
            thumbnailURL := (getMap embedMap "thumbnail").bind fun t => getStr t "url",
            imageURL := (getMap embedMap "image").bind fun im => getStr im "url",
            fields := fields }
  | _ => .error "embed must be an object"

/-- The embed loop of SendMessageTool / EditMessageTool, producing the error
of the first invalid embed with its index. -/
def parseEmbedList : List GoVal → Nat → Except String (List MessageEmbed)
  | [], _ => .ok []
  | embedData :: rest, i =>
      match parseEmbed embedData with
      | .error e => .error ("invalid embed at index " ++ toString i ++ ": " ++ e)
      | .ok embed =>
          match parseEmbedList rest (i + 1) with
          | .error e => .error e
          | .ok tail => .ok (embed :: tail)

/-- SendMessageTool.Execute (the send_message tool). -/
def sendMessageExecute (env : DiscordEnv) (params : CallToolParams) :
    CallToolResult × Option String :=
  match validateToolParams "send_message" params.arguments with
  | .error err => (formatValidationError err, none)
  | .ok () =>
  let channelID := (getStr params.arguments "channel_id").getD ""
  let content := (getStr params.arguments "content").getD ""
  let tts := (getBool params.arguments "tts").getD false
  let replyTo := (getStr params.arguments "reply_to").getD ""
  let embedsResult : Except CallToolResult (List MessageEmbed) :=
    match lookupKey params.arguments "embeds" with
    | none => .ok []
    | some (.vList embedsSlice) =>
        match parseEmbedList embedsSlice 0 with
        | .error e => .error (formatValidationError (.plain e))
        | .ok embeds => .ok embeds
    | some _ => .error (formatValidationError (.plain "embeds must be an array"))
  match embedsResult with
  | .error r => (r, none)
  | .ok embeds =>
  match validateMessageOperation env "send_message" channelID [("tts", .vBool tts)] with
  | .error (.perm permErr) => (formatPermissionError permErr, none)
  | .error (.plain e) => (formatErrorResult "Permission check failed" e, none)
  | .ok () =>
  let msgData : MessageSendData := {
    content := content, tts := tts, embeds := embeds,
    referenceMessageID := if replyTo != "" then replyTo else "",
    referenceChannelID := if replyTo != "" then channelID else "" }
  match env.sendComplex channelID msgData with
  | .error e => (formatErrorResult "Failed to send message" e, none)
  | .ok message =>
      ({ content := [{
          type := "text"
          text := "✅ Message sent successfully to <#" ++ channelID ++ ">"
          data := some (.vMap [
            ("message_id", .vStr message.id),
            ("channel_id", .vStr channelID),
            ("content", .vStr message.content),
            ("timestamp", .vStr message.timestamp),
            ("tts", .vBool message.tts),
            ("embed_count", .vInt (message.embeds.length : Int)),
            ("has_reply", .vBool (replyTo != "")),
            ("message_url", .vStr ("https://discord.com/channels/" ++ message.guildID ++
              "/" ++ channelID ++ "/" ++ message.id))]) }]
         isError := false }, none)

/-- formatMentions of GetChannelMessagesTool. -/
def formatMentions (mentions : List UserData) : List GoVal :=
  mentions.map fun user => .vMap [
    ("id", .vStr user.id),
    ("username", .vStr user.username),
    ("discriminator", .vStr user.discriminator),
    ("avatar", .vStr user.avatar),
    ("bot", .vBool user.bot)]

/-- formatMessage of GetChannelMessagesTool: the full structured rendering
of a fetched message. -/
def formatMessage (msg : MessageData) : GoVal :=
  let attachments : List GoVal := msg.attachments.map fun att => .vMap [
    ("id", .vStr att.id),
    ("filename", .vStr att.filename),
    ("size", .vInt att.size),
    ("url", .vStr att.url),
    ("width", .vInt att.width),
    ("height", .vInt att.height)]
  let embeds : List GoVal := msg.embeds.map fun embed =>
    let base : List (String × GoVal) := [
      ("title", .vStr embed.title),
      ("description", .vStr embed.description),
      ("color", .vInt embed.color),
      ("url", .vStr embed.url)]
    let withThumb := base ++ (match embed.thumbnailURL with
      | some u => [("thumbnail", .vMap [("url", .vStr u)])]
      | none => [])
    let withImage := withThumb ++ (match embed.imageURL with
      | some u => [("image", .vMap [("url", .vStr u)])]
      | none => [])
    let withFields := withImage ++ (if embed.fields.length > 0 then
      [("fields", .vList (embed.fields.map fun field => .vMap [
        ("name", .vStr field.name),
        ("value", .vStr field.value),
        ("inline", .vBool field.inline)]))]
      else [])
    .vMap withFields
  let reactions : List GoVal := msg.reactions.map fun reaction => .vMap [
    ("emoji", .vMap [
      ("name", .vStr reaction.emojiName),
      ("id", .vStr reaction.emojiID)]),
    ("count", .vInt reaction.count),
    ("me", .vBool reaction.me)]
  .vMap [
    ("id", .vStr msg.id),
    ("content", .vStr msg.content),
    ("author", .vMap [
      ("id", .vStr msg.author.id),
      ("username", .vStr msg.author.username),
      ("discriminator", .vStr msg.author.discriminator),
      ("avatar", .vStr msg.author.avatar),
      ("bot", .vBool msg.author.bot)]),
    ("timestamp", .vStr msg.timestamp),
    ("edited", .vBool msg.edited),
    ("tts", .vBool msg.tts),
    ("mention_everyone", .vBool msg.mentionEveryone),
    ("mentions", .vList (formatMentions msg.mentions)),
    ("attachments", .vList attachments),
    ("embeds", .vList embeds),
    ("reactions", .vList reactions),
    ("pinned", .vBool msg.pinned),
    ("type", .vInt msg.mtype),
    ("flags", .vInt msg.flags),
    ("message_url", .vStr ("https://discord.com/channels/" ++ msg.guildID ++ "/" ++
      msg.channelID ++ "/" ++ msg.id))]

/-- GetChannelMessagesTool.Execute (the get_channel_messages tool). -/
def getChannelMessagesExecute (env : DiscordEnv) (params : CallToolParams) :
    CallToolResult × Option String :=
  match validateToolParams "get_channel_messages" params.arguments with
  | .error err => (formatValidationError err, none)
  | .ok () =>
  let channelID := (getStr params.arguments "channel_id").getD ""
  let limit0 : Int :=
    match lookupKey params.arguments "limit" with
    | some (.vInt n) => n
    | _ => 50
  let limit : Int := if limit0 > 100 then 100 else limit0
  let beforeID := (getStr params.arguments "before").getD ""
  let afterID := (getStr params.arguments "after").getD ""
  let aroundID := (getStr params.arguments "around").getD ""
  match validateMessageOperation env "get_messages" channelID [] with
  | .error (.perm permErr) => (formatPermissionError permErr, none)
  | .error (.plain e) => (formatErrorResult "Permission check failed" e, none)
  | .ok () =>
  match env.channelMessages channelID limit beforeID afterID aroundID with
  | .error e => (formatErrorResult "Failed to get channel messages" e, none)
  | .ok messages =>
      ({ content := [{
          type := "text"
          text := "📨 Retrieved " ++ toString messages.length ++ " messages from <#" ++
            channelID ++ ">",
          data := some (.vMap [
            ("channel_id", .vStr channelID),
            ("message_count", .vInt (messages.length : Int)),
            ("messages", .vList (messages.map formatMessage)),
            ("query", .vMap [
              ("limit", .vInt limit),
              ("before", .vStr beforeID),
              ("after", .vStr afterID),
              ("around", .vStr aroundID)])]) }]
         isError := false }, none)

/-- EditMessageTool.Execute (the edit_message tool). -/
def editMessageExecute (env : DiscordEnv) (params : CallToolParams) :
    CallToolResult × Option String :=
  match validateToolParams "edit_message" params.arguments with
  | .error err => (formatValidationError err, none)
  | .ok () =>
  let channelID := (getStr params.arguments "channel_id").getD ""
  let messageID := (getStr params.arguments "message_id").getD ""
  let newContent := (getStr params.arguments "content").getD ""
  let embedsResult : Except CallToolResult (Option (List MessageEmbed)) :=
    match lookupKey params.arguments "embeds" with
    | none => .ok none
    | some (.vList embedsSlice) =>
        match parseEmbedList embedsSlice 0 with
        | .error e => .error (formatValidationError (.plain e))
        | .ok embeds => .ok (some embeds)
    | some _ => .error (formatValidationError (.plain "embeds must be an array"))
  match embedsResult with
  | .error r => (r, none)
  | .ok newEmbeds =>
  match validateMessageOperation env "edit_message" channelID
      [("message_id", .vStr messageID)] with
  | .error (.perm permErr) => (formatPermissionError permErr, none)
  | .error (.plain e) => (formatErrorResult "Permission check failed" e, none)
  | .ok () =>
  let msgEdit : MessageEditData := {
    content := newContent, id := messageID, channel := channelID, embeds := newEmbeds }
  match env.editComplex msgEdit with
  | .error e => (formatErrorResult "Failed to edit message" e, none)
  | .ok message =>
      ({ content := [{
          type := "text"
          text := "✏️ Message edited successfully in <#" ++ channelID ++ ">"
          data := some (.vMap [
            ("message_id", .vStr message.id),
            ("channel_id", .vStr channelID),
            ("new_content", .vStr message.content),
            ("edited_timestamp", .vStr message.editedTimestamp),
            ("embed_count", .vInt (message.embeds.length : Int)),
            ("message_url", .vStr ("https://discord.com/channels/" ++ message.guildID ++
              "/" ++ channelID ++ "/" ++ message.id))]) }]
         isError := false }, none)

/-- DeleteMessageTool.Execute (the delete_message tool). -/
def deleteMessageExecute (env : DiscordEnv) (params : CallToolParams) :
    CallToolResult × Option String :=
  match validateToolParams "delete_message" params.arguments with
  | .error err => (formatValidationError err, none)
  | .ok () =>
  let channelID := (getStr params.arguments "channel_id").getD ""
  let messageID := (getStr params.arguments "message_id").getD ""
  let reason := (getStr params.arguments "reason").getD ""
  match validateMessageOperation env "delete_message" channelID
      [("message_id", .vStr messageID)] with
  | .error (.perm permErr) => (formatPermissionError permErr, none)
  | .error (.plain e) => (formatErrorResult "Permission check failed" e, none)
  | .ok () =>
  match env.channelMessage channelID messageID with
  | .error e => (formatErrorResult "Failed to get message info before deletion" e, none)
  | .ok message =>
  match env.deleteMessage channelID messageID with
  | .error e => (formatErrorResult "Failed to delete message" e, none)
  | .ok () =>
      ({ content := [{
          type := "text"
          text := "🗑️ Message deleted successfully from <#" ++ channelID ++ ">"
          data := some (.vMap [
            ("deleted_message_id", .vStr messageID),
            ("channel_id", .vStr channelID),
            ("deleted_content", .vStr message.content),
            ("author_id", .vStr message.author.id),
            ("author_username", .vStr message.author.username),
            ("deletion_reason", .vStr reason),
            ("deleted_at", .vStr env.nowFormatted)]) }]
         isError := false }, none)

/-- isCustomEmoji of AddReactionTool. -/
def isCustomEmoji (emoji : String) : Bool :=
  emoji.data.length > 2 && emoji.data.head? == some '<' && emoji.data.getLast? == some '>' &&
    ("<:".isPrefixOf emoji || "<a:".isPrefixOf emoji)

/-- formatEmoji of AddReactionTool: a custom emoji keeps only its name:id
core, a Unicode emoji passes through. -/
def formatEmoji (emoji : String) : String :=
  if isCustomEmoji emoji then
    if "<a:".isPrefixOf emoji then
      ((emoji.drop 3).dropRight 1)
    else if "<:".isPrefixOf emoji then
      ((emoji.drop 2).dropRight 1)
    else emoji
  else emoji

/-- AddReactionTool.Execute (the add_reaction tool): note the emoji-format
validation runs after the permission gate. -/
def addReactionExecute (env : DiscordEnv) (params : CallToolParams) :
    CallToolResult × Option String :=
  match validateToolParams "add_reaction" params.arguments with
  | .error err => (formatValidationError err, none)
  | .ok () =>
  let channelID := (getStr params.arguments "channel_id").getD ""
  let messageID := (getStr params.arguments "message_id").getD ""
  let emoji := (getStr params.arguments "emoji").getD ""
  match validateMessageOperation env "add_reaction" channelID [("emoji", .vStr emoji)] with
  | .error (.perm permErr) => (formatPermissionError permErr, none)
  | .error (.plain e) => (formatErrorResult "Permission check failed" e, none)
  | .ok () =>
  let formattedEmoji := formatEmoji emoji
  if formattedEmoji = "" then
    (formatValidationError (.plain ("invalid emoji format: " ++ emoji)), none)
  else
  match env.messageReactionAdd channelID messageID formattedEmoji with
  | .error e => (formatErrorResult "Failed to add reaction" e, none)
  | .ok () =>
      ({ content := [{
          type := "text"
          text := "👍 Added reaction " ++ emoji ++ " to message in <#" ++ channelID ++ ">"
          data := some (.vMap [
            ("message_id", .vStr messageID),
            ("channel_id", .vStr channelID),
            ("emoji", .vStr emoji),
            ("formatted_emoji", .vStr formattedEmoji),
            ("is_custom_emoji", .vBool (isCustomEmoji emoji)),
            ("added_at", .vStr env.nowFormatted),
            ("message_url", .vStr ("https://discord.com/channels/@me/" ++ channelID ++
              "/" ++ messageID))]) }]
         isError := false }, none)

/-- channelTypeToString (channels.go lines 120-141); discordgo channel type
constants: text 0, voice 2, category 4, news 5, store 6, news thread 10,
public thread 11, private thread 12. -/
def channelTypeToString (channelType : Int) : String :=
  if channelType = 0 then "text"
  else if channelType = 2 then "voice"
  else if channelType = 4 then "category"
  else if channelType = 5 then "news"
  else if channelType = 6 then "store"
  else if channelType = 10 then "news_thread"
  else if channelType = 11 then "public_thread"
  else if channelType = 12 then "private_thread"
  else "unknown"

/-- strings.EqualFold as applied to the ASCII channel-type names. -/
def equalFold (a b : String) : Bool :=
  a.toLower == b.toLower

/-- filterChannels of ListChannelsTool (channels.go lines 106-118). -/
def filterChannels (channels : List ChannelData) (filterType : String) : List ChannelData :=
  if filterType = "" then channels
  else channels.filter fun ch => equalFold (channelTypeToString ch.ctype) filterType

/-- formatChannel, declared identically on ListChannelsTool (channels.go
lines 144-168) and GetChannelInfoTool (lines 244-268): the base channel
rendering, with the capability map appended when permissions were asked for
(the value "error" standing in on a fetch failure). -/
def formatChannel (env : DiscordEnv) (channel : ChannelData) (includePerms : Bool) : GoVal :=
  let base : List (String × GoVal) := [
    ("id", .vStr channel.id),
    ("name", .vStr channel.name),
    ("type", .vStr (channelTypeToString channel.ctype)),
    ("position", .vInt channel.position),
    ("nsfw", .vBool channel.nsfw),
    ("parent_id", .vStr channel.parentID),
    ("guild_id", .vStr channel.guildID),
    ("topic", .vStr channel.topic),
    ("created_at", .vStr channel.lastMessageID)]
  if includePerms then
    match getChannelPermissionsChk env channel.id with
    | .error _ => .vMap (base ++ [("permissions", .vStr "error")])
    | .ok perms =>
        .vMap (base ++ [("permissions", .vMap (perms.map fun p => (p.1, .vBool p.2)))])
  else .vMap base

/-- ListChannelsTool.Execute (the list_channels tool). Note that the filter
argument is read from the key "type", which the list_channels schema does
not declare (the schema declares "type_filter"), so a validated call always
reaches this point with an empty filter. -/
def listChannelsExecute (env : DiscordEnv) (params : CallToolParams) :
    CallToolResult × Option String :=
  match validateToolParams "list_channels" params.arguments with
  | .error err => (formatValidationError err, none)
  | .ok () =>
  let guildID := (getStr params.arguments "guild_id").getD ""
  let filterType := (getStr params.arguments "type").getD ""
  let includePerms := (getBool params.arguments "include_permissions").getD false
  match canViewGuild env guildID with
  | .error (.perm permErr) => (formatPermissionError permErr, none)
  | .error (.plain e) => (formatErrorResult "Permission check failed" e, none)
  | .ok () =>
  match env.getChannels guildID with
  | .error e => (formatErrorResult "Failed to list channels" e, none)
  | .ok channels =>
      let filteredChannels := filterChannels channels filterType
      let formattedChannels := filteredChannels.map fun ch => formatChannel env ch includePerms
      ({ content := [{
          type := "text"
          text := "Found " ++ toString formattedChannels.length ++ " channels in guild " ++
            guildID
          data := some (.vMap [
            ("guild_id", .vStr guildID),
            ("channel_count", .vInt (formattedChannels.length : Int)),
            ("channels", .vList formattedChannels)]) }]
         isError := false }, none)

/-- GetChannelInfoTool.Execute (the get_channel_info tool). -/
def getChannelInfoExecute (env : DiscordEnv) (params : CallToolParams) :
    CallToolResult × Option String :=
  match validateToolParams "get_channel_info" params.arguments with
  | .error err => (formatValidationError err, none)
  | .ok () =>
  let channelID := (getStr params.arguments "channel_id").getD ""
  let includePerms := (getBool params.arguments "include_permissions").getD false
  match canViewChannel env channelID with
  | .error (.perm permErr) => (formatPermissionError permErr, none)
  | .error (.plain e) => (formatErrorResult "Permission check failed" e, none)
  | .ok () =>
  match env.channel channelID with
  | .error e => (formatErrorResult "Failed to get channel info" e, none)
  | .ok channel =>
      ({ content := [{
          type := "text"
          text := "Channel: " ++ channel.name
          data := some (formatChannel env channel includePerms) }]
         isError := false }, none)

/-- formatRole, declared identically on every role tool (part of the
handlers package). -/
def formatRole (role : RoleData) : GoVal :=
  .vMap [
    ("id", .vStr role.id),
    ("name", .vStr role.name),
    ("color", .vInt role.color),
    ("hoist", .vBool role.hoist),
    ("position", .vInt role.position),
    ("permissions", .vInt (role.permissions : Int)),
    ("managed", .vBool role.managed),
    ("mentionable", .vBool role.mentionable)]

/-- ListRolesTool.Execute (the list_roles tool). -/
def listRolesExecute (env : DiscordEnv) (params : CallToolParams) :
    CallToolResult × Option String :=
  match validateToolParams "list_roles" params.arguments with
  | .error err => (formatValidationError err, none)
  | .ok () =>
  let guildID := (getStr params.arguments "guild_id").getD ""
  match canManageRoles env guildID with
  | .error (.perm permErr) => (formatPermissionError permErr, none)
  | .error (.plain e) => (formatErrorResult "Permission check failed" e, none)
  | .ok () =>
  match env.guildRoles guildID with
  | .error e => (formatErrorResult "Failed to list roles" e, none)
  | .ok roles =>
      let formattedRoles := roles.map formatRole
      ({ content := [{
          type := "text"
          text := "Found " ++ toString formattedRoles.length ++ " roles in guild " ++ guildID
          data := some (.vMap [
            ("guild_id", .vStr guildID),
            ("role_count", .vInt (formattedRoles.length : Int)),
            ("roles", .vList formattedRoles)]) }]
         isError := false }, none)

/-- GetRoleInfoTool.Execute (the get_role_info tool). -/
def getRoleInfoExecute (env : DiscordEnv) (params : CallToolParams) :
    CallToolResult × Option String :=
  match validateToolParams "get_role_info" params.arguments with
  | .error err => (formatValidationError err, none)
  | .ok () =>
  let guildID := (getStr params.arguments "guild_id").getD ""
  let roleID := (getStr params.arguments "role_id").getD ""
  match canManageRoles env guildID with
  | .error (.perm permErr) => (formatPermissionError permErr, none)
  | .error (.plain e) => (formatErrorResult "Permission check failed" e, none)
  | .ok () =>
  match env.stateRole guildID roleID with
  | .error e => (formatErrorResult "Failed to get role info" e, none)
  | .ok role =>
      ({ content := [{
          type := "text"
          text := "Role: " ++ role.name
          data := some (formatRole role) }]
         isError := false }, none)

/-- CreateRoleTool.Execute (the create_role tool). -/
def createRoleExecute (env : DiscordEnv) (params : CallToolParams) :
    CallToolResult × Option String :=
  match validateToolParams "create_role" params.arguments with
  | .error err => (formatValidationError err, none)
  | .ok () =>
  let guildID := (getStr params.arguments "guild_id").getD ""
  let name := (getStr params.arguments "name").getD ""
  match canManageRoles env guildID with
  | .error (.perm permErr) => (formatPermissionError permErr, none)
  | .error (.plain e) => (formatErrorResult "Permission check failed" e, none)
  | .ok () =>
  match env.guildRoleCreate guildID name with
  | .error e => (formatErrorResult "Failed to create role" e, none)
  | .ok role =>
      ({ content := [{
          type := "text"
          text := "Created role: " ++ role.name
          data := some (formatRole role) }]
         isError := false }, none)

/-- DeleteRoleTool.Execute (the delete_role tool). -/
def deleteRoleExecute (env : DiscordEnv) (params : CallToolParams) :
    CallToolResult × Option String :=
  match validateToolParams "delete_role" params.arguments with
  | .error err => (formatValidationError err, none)
  | .ok () =>
  let guildID := (getStr params.arguments "guild_id").getD ""
  let roleID := (getStr params.arguments "role_id").getD ""
  match canManageRoles env guildID with
  | .error (.perm permErr) => (formatPermissionError permErr, none)
  | .error (.plain e) => (formatErrorResult "Permission check failed" e, none)
  | .ok () =>
  match env.guildRoleDelete guildID roleID with
  | .error e => (formatErrorResult "Failed to delete role" e, none)
  | .ok () =>
      ({ content := [{
          type := "text"
          text := "Deleted role with ID: " ++ roleID
          data := none }]
         isError := false }, none)

/-- AssignRoleTool.Execute (the assign_role tool). -/
def assignRoleExecute (env : DiscordEnv) (params : CallToolParams) :
    CallToolResult × Option String :=
  match validateToolParams "assign_role" params.arguments with
  | .error err => (formatValidationError err, none)
  | .ok () =>
  let guildID := (getStr params.arguments "guild_id").getD ""
  let roleID := (getStr params.arguments "role_id").getD ""
  let userID := (getStr params.arguments "user_id").getD ""
  match canManageRoles env guildID with
  | .error (.perm permErr) => (formatPermissionError permErr, none)
  | .error (.plain e) => (formatErrorResult "Permission check failed" e, none)
  | .ok () =>
  match env.guildMemberRoleAdd guildID userID roleID with
  | .error e => (formatErrorResult "Failed to assign role" e, none)
  | .ok () =>
      ({ content := [{
          type := "text"
          text := "Assigned role " ++ roleID ++ " to user " ++ userID
          data := none }]
         isError := false }, none)

/-- UnassignRoleTool.Execute (the unassign_role tool). -/
def unassignRoleExecute (env : DiscordEnv) (params : CallToolParams) :
    CallToolResult × Option String :=
  match validateToolParams "unassign_role" params.arguments with
  | .error err => (formatValidationError err, none)
  | .ok () =>
  let guildID := (getStr params.arguments "guild_id").getD ""
  let roleID := (getStr params.arguments "role_id").getD ""
  let userID := (getStr params.arguments "user_id").getD ""
  match canManageRoles env guildID with
  | .error (.perm permErr) => (formatPermissionError permErr, none)
  | .error (.plain e) => (formatErrorResult "Permission check failed" e, none)
  | .ok () =>
  match env.guildMemberRoleRemove guildID userID roleID with
  | .error e => (formatErrorResult "Failed to unassign role" e, none)
  | .ok () =>
      ({ content := [{
          type := "text"
          text := "Unassigned role " ++ roleID ++ " from user " ++ userID
          data := none }]
         isError := false }, none)

/-- formatGuild of GetGuildInfoTool. -/
def formatGuild (guild : GuildData) : GoVal :=
  .vMap [
    ("id", .vStr guild.id),
    ("name", .vStr guild.name),
    ("description", .vStr guild.description),
    ("icon", .vStr guild.icon),
    ("splash", .vStr guild.splash),
    ("banner", .vStr guild.banner),
    ("owner_id", .vStr guild.ownerID),
    ("member_count", .vInt guild.memberCount)]

/-- GetGuildInfoTool.Execute (the get_guild_info tool). The success branch
reads the guild returned by the client fetch; the permission gate has
already established it is present. -/
def getGuildInfoExecute (env : DiscordEnv) (params : CallToolParams) :
    CallToolResult × Option String :=
  match validateToolParams "get_guild_info" params.arguments with
  | .error err => (formatValidationError err, none)
  | .ok () =>
  let guildID := (getStr params.arguments "guild_id").getD ""
  match canViewGuild env guildID with
  | .error (.perm permErr) => (formatPermissionError permErr, none)
  | .error (.plain e) => (formatErrorResult "Permission check failed" e, none)
  | .ok () =>
  match env.getGuild guildID with
  | .error e => (formatErrorResult "Failed to get guild info" e, none)
  | .ok none => (formatErrorResult "Failed to get guild info" "guild not found", none)
  | .ok (some guild) =>
      ({ content := [{
          type := "text"
          text := "Guild: " ++ guild.name
          data := some (formatGuild guild) }]
         isError := false }, none)

/-- formatMember of ListGuildMembersTool. -/
def formatMember (member : MemberData) : GoVal :=
  .vMap [
    ("id", .vStr member.user.id),
    ("username", .vStr member.user.username),
    ("discriminator", .vStr member.user.discriminator),
    ("nick", .vStr member.nick),
    ("roles", .vStrList member.roles),
    ("joined_at", .vStr member.joinedAt),
    ("deaf", .vBool member.deaf),
    ("mute", .vBool member.mute)]

/-- ListGuildMembersTool.Execute (the list_guild_members tool). -/
def listGuildMembersExecute (env : DiscordEnv) (params : CallToolParams) :
    CallToolResult × Option String :=
  match validateToolParams "list_guild_members" params.arguments with
  | .error err => (formatValidationError err, none)
  | .ok () =>
  let guildID := (getStr params.arguments "guild_id").getD ""
  match canViewGuild env guildID with
  | .error (.perm permErr) => (formatPermissionError permErr, none)
  | .error (.plain e) => (formatErrorResult "Permission check failed" e, none)
  | .ok () =>
  match env.guildMembers guildID with
  | .error e => (formatErrorResult "Failed to list guild members" e, none)
  | .ok members =>
      let formattedMembers := members.map formatMember
      ({ content := [{
          type := "text"
          text := "Found " ++ toString formattedMembers.length ++ " members in guild " ++
            guildID
          data := some (.vMap [
            ("guild_id", .vStr guildID),
            ("member_count", .vInt (formattedMembers.length : Int)),
            ("members", .vList formattedMembers)]) }]
         isError := false }, none)

/-- PingTool.Execute (the ping health-check tool): no validation and no
permission gate; the connection test and identity fetch are reported
directly. The response times are carried as preformatted strings from the
environment. -/
def pingToolExecute (env : DiscordEnv) (_params : CallToolParams) :
    CallToolResult × Option String :=
  match env.pingDiscord with
  | .error e =>
      ({ content := [{
          type := "text"
          text := "Discord connection failed: " ++ e
          data := none }]
         isError := true }, none)
  | .ok () =>
  match env.getBotUser with
  | .error e =>
      ({ content := [{
          type := "text"
          text := "Failed to get bot user info: " ++ e
          data := none }]
         isError := true }, none)
  | .ok botUser =>
      ({ content := [{
          type := "text"
          text := "✅ Discord MCP Server is healthy!\n\n" ++
            "🤖 Bot: " ++ botUser.username ++ "#" ++ botUser.discriminator ++
            " (ID: " ++ botUser.id ++ ")\n" ++
            "📡 Connected: " ++ (if env.isConnected then "true" else "false") ++ "\n" ++
            "⏱️ Response time: " ++ env.pingDuration ++ "\n" ++
            "🕒 Timestamp: " ++ env.nowFormatted
          data := none }]
         isError := false }, none)

/-- One tool implementation: its registered definition and its Execute
method (parameterized by the remote-service oracle). -/
structure ToolImpl where
  definition : Tool
  execute : DiscordEnv → CallToolParams → CallToolResult × Option String

/-- Every ToolHandler implementation of the repository, each with the
description string of its GetDefinition method. The ping tool declares its
empty schema inline; every other definition carries its entry of
ToolSchemas. -/
def sendMessageImpl : ToolImpl :=
  { definition := getToolDefinition "send_message"
      "Send a message to a Discord channel with support for embeds, replies, and TTS"
    execute := sendMessageExecute }

def getChannelMessagesImpl : ToolImpl :=
  { definition := getToolDefinition "get_channel_messages"
      "Retrieve message history from a Discord channel with pagination support"
    execute := getChannelMessagesExecute }

def editMessageImpl : ToolImpl :=
  { definition := getToolDefinition "edit_message"
      "Edit a Discord message\x27s content or embeds"
    execute := editMessageExecute }

def deleteMessageImpl : ToolImpl :=
  { definition := getToolDefinition "delete_message" "Delete a Discord message"
    execute := deleteMessageExecute }

def addReactionImpl : ToolImpl :=
  { definition := getToolDefinition "add_reaction"
      "Add an emoji reaction to a Discord message"
    execute := addReactionExecute }

def listChannelsImpl : ToolImpl :=
  { definition := getToolDefinition "list_channels"
      "List channels in a Discord server (guild)"
    execute := listChannelsExecute }

def getChannelInfoImpl : ToolImpl :=
  { definition := getToolDefinition "get_channel_info"
      "Get information about a specific Discord channel"
    execute := getChannelInfoExecute }

def getGuildInfoImpl : ToolImpl :=
  { definition := getToolDefinition "get_guild_info"
      "Get information about a specific Discord server (guild)"
    execute := getGuildInfoExecute }

def listGuildMembersImpl : ToolImpl :=
  { definition := getToolDefinition "list_guild_members"
      "List all members in a Discord server (guild)"
    execute := listGuildMembersExecute }

def listRolesImpl : ToolImpl :=
  { definition := getToolDefinition "list_roles"
      "List all roles in a Discord server (guild)"
    execute := listRolesExecute }

def getRoleInfoImpl : ToolImpl :=
  { definition := getToolDefinition "get_role_info"
      "Get information about a specific Discord role"
    execute := getRoleInfoExecute }

def createRoleImpl : ToolImpl :=
  { definition := getToolDefinition "create_role"
      "Create a new role in a Discord server (guild)"
    execute := createRoleExecute }

def deleteRoleImpl : ToolImpl :=
  { definition := getToolDefinition "delete_role"
      "Delete a role in a Discord server (guild)"
    execute := deleteRoleExecute }

def assignRoleImpl : ToolImpl :=
  { definition := getToolDefinition "assign_role"
      "Assign a role to a user in a Discord server (guild)"
    execute := assignRoleExecute }

def unassignRoleImpl : ToolImpl :=
  { definition := getToolDefinition "unassign_role"
      "Unassign a role from a user in a Discord server (guild)"
    execute := unassignRoleExecute }

def pingImpl : ToolImpl :=
  { definition := {
      name := "ping"
      description := "Ping the Discord connection to verify server health and bot status"
      inputSchema := .vMap [
        ("type", .vStr "object"),
        ("properties", .vMap []),
        ("required", .vStrList [])] }
    execute := pingToolExecute }

/-- The collection of every tool implementation in the source (the concrete
registration order lives in the startup code and is immaterial: names are
unique). -/
def allToolImpls : List ToolImpl := [
  sendMessageImpl, getChannelMessagesImpl, editMessageImpl, deleteMessageImpl,
  addReactionImpl, listChannelsImpl, getChannelInfoImpl, getGuildInfoImpl,
  listGuildMembersImpl, listRolesImpl, getRoleInfoImpl, createRoleImpl,
  deleteRoleImpl, assignRoleImpl, unassignRoleImpl, pingImpl]

/-! ## Transport session (the mcp Server)

The Server reads one JSON line, unmarshals it into a Request and dispatches
on the method. The embedding starts from the decoded Request (the raw JSON
parse of the inbound line is the work of encoding/json; its failure branch
returns the ParseError response and is not needed by the claims). The
`initialized` flag guarded by the read-write mutex is the session state. -/

def jsonrpcVersion : String := "2.0"
def protocolVersionConst : String := "2024-11-05"

def parseErrorCode : Int := -32700
def invalidRequestCode : Int := -32600
def methodNotFoundCode : Int := -32601
def invalidParamsCode : Int := -32602
def internalErrorCode : Int := -32603

/-- Request (mcp.go lines 8-13); the ID member is an arbitrary decoded JSON
value or absent, the Params member a raw message or absent (nil). -/
structure Request where
  jsonrpc : String
  id : Option GoVal
  method : String
  params : Option GoVal

/-- Error (mcp.go lines 24-28); the Data member only ever carries an error
string here. -/
structure RpcError where
  code : Int
  message : String
  data : Option String
deriving DecidableEq, Repr

/-- ServerInfo (mcp.go lines 40-43). -/
structure ServerInfo where
  name : String
  version : String
deriving DecidableEq, Repr

/-- ToolsCapability (mcp.go lines 70-72). -/
structure ToolsCapability where
  listChanged : Bool
deriving DecidableEq, Repr

/-- ServerCapabilities (mcp.go lines 63-67); the resources and prompts
members are never populated by this server. -/
structure ServerCapabilities where
  tools : Option ToolsCapability
deriving DecidableEq, Repr

/-- InitializeResult (mcp.go lines 56-60). -/
structure InitializeResult where
  protocolVersion : String
  capabilities : ServerCapabilities
  serverInfo : ServerInfo
deriving DecidableEq, Repr

/-- InitializeParams (mcp.go lines 46-53), flattened to the members the
server reads. -/
structure InitializeParams where
  protocolVersion : String
  clientName : String
  clientVersion : String

/-- The dynamic result member of a Response: each handler stores one of
these concrete result values. -/
inductive ResultVal where
  | initResult : InitializeResult → ResultVal
  | toolsList : List Tool → ResultVal
  | callResult : CallToolResult → ResultVal
  | pong : List (String × String) → ResultVal

/-- Response (mcp.go lines 16-21). -/
structure Response where
  jsonrpc : String
  id : Option GoVal
  result : Option ResultVal
  error : Option RpcError

/-- Decoding of one string member by json.Unmarshal into a Go struct: an
absent member keeps the zero value, a present member of another JSON type
fails the unmarshal. -/
def decodeStringField (m : List (String × GoVal)) (k : String) : Except String String :=
  match lookupKey m k with
  | none => .ok ""
  | some (.vStr s) => .ok s
  | some _ => .error ("cannot unmarshal field " ++ k)

/-- json.Unmarshal of a params raw message into InitializeParams. -/
def decodeInitializeParams (v : GoVal) : Except String InitializeParams :=
  match v with
  | .vMap m =>
      match decodeStringField m "protocolVersion" with
      | .error e => .error e
      | .ok pv =>
          match lookupKey m "clientInfo" with
          | none => .ok { protocolVersion := pv, clientName := "", clientVersion := "" }
          | some (.vMap cm) =>
              match decodeStringField cm "name", decodeStringField cm "version" with
              | .ok n, .ok ver =>
                  .ok { protocolVersion := pv, clientName := n, clientVersion := ver }
              | .error e, _ => .error e
              | _, .error e => .error e
          | some _ => .error "cannot unmarshal field clientInfo"
  | _ => .error "cannot unmarshal params"

/-- json.Unmarshal of a params raw message into CallToolParams; an absent
arguments member leaves the nil map. -/
def decodeCallToolParams (v : GoVal) : Except String CallToolParams :=
  match v with
  | .vMap m =>
      match decodeStringField m "name" with
      | .error e => .error e
      | .ok n =>
          match lookupKey m "arguments" with
          | none => .ok { name := n, arguments := [] }
          | some (.vMap am) => .ok { name := n, arguments := am }
          | some .vNull => .ok { name := n, arguments := [] }
          | some _ => .error "cannot unmarshal field arguments"
  | _ => .error "cannot unmarshal params"

/-- A registered tool handler of the Server: its definition and its bound
Execute method (the remote-service oracle already applied). -/
structure ToolHandler where
  definition : Tool
  execute : CallToolParams → CallToolResult × Option String

/-- The Server state (part 19-26 of the mcp server source): configuration
identity, the registered tools and the handshake flag. -/
structure ServerState where
  serverName : String
  serverVersion : String
  tools : List (String × ToolHandler)
  initialized : Bool

/-- RegisterTool applied to every implementation: the registry maps each
definition name to its handler. -/
def registerAllTools (env : DiscordEnv) : List (String × ToolHandler) :=
  allToolImpls.map fun t =>
    (t.definition.name, { definition := t.definition, execute := t.execute env })

/-- Registry lookup `s.tools[params.Name]` with comma-ok. -/
def lookupHandler : List (String × ToolHandler) → String → Option ToolHandler
  | [], _ => none
  | (k, h) :: rest, key => if k = key then some h else lookupHandler rest key

/-- The InvalidRequest response produced before the handshake completes. -/
def notInitializedResponse (req : Request) : Response :=
  { jsonrpc := jsonrpcVersion
    id := req.id
    result := none
    error := some {
            code := invalidRequestCode
            message := "Server not initialized"
            data := none } }

/-- Server.handleInitialize: decode failures yield InvalidParams, otherwise
the protocol version, capabilities and server identity are returned; the
handshake flag is not consulted. -/
def handleInitializeRequest (s : ServerState) (req : Request) : Option Response :=
  let okResponse : Option Response := some {
    jsonrpc := jsonrpcVersion
    id := req.id
    result := some (.initResult {
      protocolVersion := protocolVersionConst
      capabilities := { tools := some { listChanged := false } }
      serverInfo := { name := s.serverName, version := s.serverVersion } })
    error := none }
  match req.params with
  | none => okResponse
  | some pv =>
      match decodeInitializeParams pv with
      | .error e =>
          some {
            jsonrpc := jsonrpcVersion
            id := req.id
            result := none
            error := some {
              code := invalidParamsCode
              message := "Invalid parameters"
              data := some e } }
      | .ok _ => okResponse

/-- Server.handleToolsList: rejected while uninitialized, otherwise the
definitions of every registered tool. -/
def handleToolsList (s : ServerState) (req : Request) : Option Response :=
  if !s.initialized then some (notInitializedResponse req)
  else some {
    jsonrpc := jsonrpcVersion
    id := req.id
    result := some (.toolsList (s.tools.map fun t => t.2.definition))
    error := none }

/-- Server.handleToolCall: rejected while uninitialized (before the params
are even decoded), then params decoding (InvalidParams on failure), registry
lookup (MethodNotFound on an unknown tool name), execution (InternalError
when the handler returns a Go error), and the successful envelope around the
tool result otherwise. -/
def handleToolCall (s : ServerState) (req : Request) : Option Response :=
  if !s.initialized then some (notInitializedResponse req)
  else
    match (match req.params with
      | none => (.error "unexpected end of JSON input" : Except String CallToolParams)
      | some pv => decodeCallToolParams pv) with
    | .error e =>
        some {
          jsonrpc := jsonrpcVersion
          id := req.id
          result := none
          error := some {
            code := invalidParamsCode
            message := "Invalid parameters"
            data := some e } }
    | .ok params =>
        match lookupHandler s.tools params.name with
        | none =>
            some {
              jsonrpc := jsonrpcVersion
              id := req.id
              result := none
              error := some {
                code := methodNotFoundCode
                message := "Tool not found: " ++ params.name
                data := none } }
        | some handler =>
            match handler.execute params with
            | (_, some errMsg) =>
                some {
                  jsonrpc := jsonrpcVersion
                  id := req.id
                  result := none
                  error := some {
                    code := internalErrorCode
                    message := "Tool execution failed: " ++ errMsg
                    data := none } }
            | (result, none) =>
                some {
                  jsonrpc := jsonrpcVersion
                  id := req.id
                  result := some (.callResult result)
                  error := none }

/-- Server.handlePing: unconditionally pong, echoing the request id. -/
def handlePing (req : Request) : Option Response :=
  some {
    jsonrpc := jsonrpcVersion
    id := req.id
    result := some (.pong [("status", "pong")])
    error := none }

/-- Server.processMessage from the decoded request onward: dispatch by
method; the `initialized` notification flips the handshake flag and gets no
response; an unknown method is MethodNotFound. -/
def processRequest (s : ServerState) (req : Request) : ServerState × Option Response :=
  if req.method = "initialize" then (s, handleInitializeRequest s req)
  else if req.method = "initialized" then ({ s with initialized := true }, none)
  else if req.method = "tools/list" then (s, handleToolsList s req)
  else if req.method = "tools/call" then (s, handleToolCall s req)
  else if req.method = "ping" then (s, handlePing req)
  else (s, some {
    jsonrpc := jsonrpcVersion
    id := req.id
    result := none
    error := some {
      code := methodNotFoundCode
      message := "Method not found: " ++ req.method
      data := none } })

/-! ## Notification channel (src/internal/notifications/service.go and
src/internal/discord/dispatcher.go) -/

/-- Notification (mcp.go lines 31-35); the params raw message is carried as
the value it encodes. -/
structure Notification where
  jsonrpc : String
  method : String
  params : GoVal

/-- The shared output sink: the written lines, and whether writes currently
fail (modelling an Fprintln error). -/
structure Sink where
  failing : Bool
  lines : List String

/-- Service.Send (service.go lines 29-50): under the service mutex, an
unconfigured writer or a write failure yields an error (swallowed by every
caller); otherwise the marshalled envelope goes out as one line. The
marshalling of encoding/json is an external function, passed in as
`marshal`. -/
def serviceSend (configured : Bool) (marshal : Notification → String) (sink : Sink)
    (n : Notification) : Sink × Except String Unit :=
  if !configured then (sink, .error "notification writer not configured")
  else
    let line := marshal { n with jsonrpc := jsonrpcVersion }
    if sink.failing then (sink, .error "failed to write notification")
    else ({ sink with lines := sink.lines ++ [line] }, .ok ())

/-- EventsConfig (of the config package): the global enable flag and the
allow-list. -/
structure EventsConfig where
  enabled : Bool
  allowedEvents : List String

/-- isEventAllowed (dispatcher.go lines 108-115): linear scan of the
allow-list. -/
def isEventAllowed (config : EventsConfig) (event : String) : Bool :=
  go config.allowedEvents
where
  go : List String → Bool
  | [] => false
  | allowedEvent :: rest => if allowedEvent = event then true else go rest

/-- createNotification (dispatcher.go lines 94-106); the params map is
marshalled into the raw message, modelled by carrying the map itself. -/
def createNotification (method : String) (params : List (String × GoVal)) : Notification :=
  { jsonrpc := jsonrpcVersion, method := method, params := .vMap params }

/-- A MessageCreate gateway event, restricted to the members read. -/
structure MessageCreateEvent where
  guildID : String
  channelID : String
  id : String
  authorID : String
  content : String

/-- A GuildMemberAdd gateway event, restricted to the members read. -/
structure GuildMemberAddEvent where
  guildID : String
  userID : String
  username : String

/-- A MessageReactionAdd gateway event, restricted to the members read. -/
structure MessageReactionAddEvent where
  guildID : String
  channelID : String
  messageID : String
  userID : String
  emojiID : String
  emojiName : String

/-- EventDispatcher.HandleMessageCreate (dispatcher.go lines 32-49): a no-op
unless the global enable flag is set and the event name is allow-listed;
otherwise the notification is built and sent, and a send failure is only
logged. The second component reports the notification handed to Send, when
one was. -/
def handleMessageCreate (config : EventsConfig) (configured : Bool)
    (marshal : Notification → String) (sink : Sink) (m : MessageCreateEvent) :
    Sink × Option Notification :=
  if !config.enabled || !isEventAllowed config "discord/messageCreated" then (sink, none)
  else
    let n := createNotification "discord/messageCreated" [
      ("guild_id", .vStr m.guildID),
      ("channel_id", .vStr m.channelID),
      ("message_id", .vStr m.id),
      ("author_id", .vStr m.authorID),
      ("content", .vStr m.content)]
    let (sink2, _) := serviceSend configured marshal sink n
    (sink2, some n)

/-- EventDispatcher.HandleGuildMemberAdd (dispatcher.go lines 52-69). -/
def handleGuildMemberAdd (config : EventsConfig) (configured : Bool)
    (marshal : Notification → String) (sink : Sink) (m : GuildMemberAddEvent) :
    Sink × Option Notification :=
  if !config.enabled || !isEventAllowed config "discord/guildMemberAdded" then (sink, none)
  else
    let n := createNotification "discord/guildMemberAdded" [
      ("guild_id", .vStr m.guildID),
      ("user", .vMap [
        ("id", .vStr m.userID),
        ("username", .vStr m.username)])]
    let (sink2, _) := serviceSend configured marshal sink n
    (sink2, some n)

/-- EventDispatcher.HandleMessageReactionAdd (dispatcher.go lines 72-92). -/
def handleMessageReactionAdd (config : EventsConfig) (configured : Bool)
    (marshal : Notification → String) (sink : Sink) (r : MessageReactionAddEvent) :
    Sink × Option Notification :=
  if !config.enabled || !isEventAllowed config "discord/messageReactionAdded" then
    (sink, none)
  else
    let n := createNotification "discord/messageReactionAdded" [
      ("guild_id", .vStr r.guildID),
      ("channel_id", .vStr r.channelID),
      ("message_id", .vStr r.messageID),
      ("user_id", .vStr r.userID),
      ("emoji", .vMap [
        ("id", .vStr r.emojiID),
        ("name", .vStr r.emojiName)])]
    let (sink2, _) := serviceSend configured marshal sink n
    (sink2, some n)

/-! ## Output synchronization skeletons

The two paths that write envelopes to the shared output sink are reduced to
their synchronization skeletons: the sequence of lock operations and
marshal-plus-write steps each path performs.

The notification path, Service.Send (service.go lines 29-50), acquires the
mutex owned by the notification Service (`s.mutex.Lock()` with the deferred
unlock) around its marshal and Fprintln.

The response path, Server.handleCommunication (the session source, lines
90-104), marshals the response and writes it with Fprintln directly; no lock
of any kind is taken there, and the read-write mutex of the Server guards
only the `initialized` flag and the registry inside the handlers, released
before the write. -/

/-- One step of a writing path: acquiring or releasing a named lock, or
marshalling an envelope and writing it as one line. -/
inductive SyncStep where
  | acquire : String → SyncStep
  | release : String → SyncStep
  | marshalWrite : String → SyncStep
deriving DecidableEq, Repr

/-- The synchronization skeleton of Service.Send. -/
def serviceSendSync : List SyncStep := [
  .acquire "notifications.Service.mutex",
  .marshalWrite "notification envelope",
  .release "notifications.Service.mutex"]

/-- The synchronization skeleton of the response write in
Server.handleCommunication. -/
def responseWriteSync : List SyncStep := [
  .marshalWrite "response envelope"]

/-- The multiset of locks held at each marshal-plus-write step of a path,
in path order. -/
def locksHeldAtWrites (steps : List SyncStep) : List (List String) :=
  go [] steps
where
  go : List String → List SyncStep → List (List String)
  | _, [] => []
  | held, .acquire l :: rest => go (held ++ [l]) rest
  | held, .release l :: rest => go (held.erase l) rest
  | held, .marshalWrite _ :: rest => held :: go held rest

/-! ## Helper definitions for the verification statements -/

/-- The error member of an optional response. -/
def responseErrorOf : Option Response → Option RpcError
  | none => none
  | some r => r.error

/-- The required-field list declared by a registered tool definition. -/
def requiredFieldsOfTool (d : Tool) : List String :=
  match d.inputSchema with
  | .vMap m => (getStrList m "required").getD []
  | _ => []

/-- A remote-service oracle with inert defaults, used to instantiate
statements at concrete inputs. -/
def env0 : DiscordEnv := {
  getBotUser := .ok ⟨"bot-id", "bot", "0000"⟩
  channel := fun _ => .error "not available"
  userChannelPermissions := fun _ _ => .ok 0
  getGuild := fun _ => .error "not available"
  channelMessage := fun _ _ => .error "not available"
  memberRoles := fun _ _ => .ok []
  stateRole := fun _ _ => .error "not available"
  sendComplex := fun _ _ => .error "not connected"
  editComplex := fun _ => .error "not connected"
  deleteMessage := fun _ _ => .error "not connected"
  messageReactionAdd := fun _ _ _ => .error "not connected"
  channelMessages := fun _ _ _ _ _ => .error "not connected"
  getChannels := fun _ => .error "not connected"
  guildRoles := fun _ => .error "not connected"
  guildRoleCreate := fun _ _ => .error "not connected"
  guildRoleDelete := fun _ _ => .error "not connected"
  guildMemberRoleAdd := fun _ _ _ => .error "not connected"
  guildMemberRoleRemove := fun _ _ _ => .error "not connected"
  guildMembers := fun _ => .error "not connected"
  pingDiscord := .ok ()
  isConnected := true
  pingDuration := "1ms"
  nowFormatted := "2024-01-01T00:00:00Z" }

/-- A guild channel record with the given guild identity. -/
def mkChannel (g : String) : ChannelData :=
  { id := "c"
    name := "general"
    ctype := 0
    position := 0
    nsfw := false
    parentID := ""
    guildID := g
    topic := ""
    lastMessageID := "1" }

/-- A message record with the given author identity. -/
def mkMessage (authorID : String) : MessageData :=
  { id := "m"
    content := "hello"
    author := {
      id := authorID
      username := "user"
      discriminator := "0001"
      avatar := ""
      bot := false }
    timestamp := "2024-01-01T00:00:00Z"
    edited := false
    editedTimestamp := ""
    tts := false
    mentionEveryone := false
    pinned := false
    mentions := []
    attachments := []
    embeds := []
    reactions := []
    mtype := 0
    flags := 0
    guildID := "g"
    channelID := "c" }

/-- The oracle for the edit-message scenario: the bot identity, a guild
channel with the given resolved permission mask, and a target message with
the given author. -/
def editEnv (mask : Nat) (g authorID botID : String) : DiscordEnv :=
  { env0 with
    getBotUser := .ok ⟨botID, "bot", "0000"⟩
    channel := fun _ => .ok (mkChannel g)
    userChannelPermissions := fun _ _ => .ok mask
    channelMessage := fun _ _ => .ok (mkMessage authorID) }

/-- The schema of the concrete validation case of the specification:
required a and b, a a string of at most three characters. -/
def exampleSchemaAB : List (String × GoVal) := [
  ("required", .vStrList ["a", "b"]),
  ("properties", .vMap [
    ("a", .vMap [("type", .vStr "string"), ("maxLength", .vInt 3)])])]

/-- The same schema with b also declared as a property (the minimal repair
the unknown-field check of the validator forces). -/
def exampleSchemaABDeclared : List (String × GoVal) := [
  ("required", .vStrList ["a", "b"]),
  ("properties", .vMap [
    ("a", .vMap [("type", .vStr "string"), ("maxLength", .vInt 3)]),
    ("b", .vMap [("type", .vStr "string")])])]

/-- A schema declaring one string property and requiring nothing, used to
exhibit the interleaving of the unknown-field check. -/
def exampleSchemaOnlyA : List (String × GoVal) := [
  ("properties", .vMap [
    ("a", .vMap [("type", .vStr "string")])])]

/-! ## Claim theorems -/

/-- C2: the get_channel_messages schema expresses at-most-one-of
before/after/around through not(anyOf(allOf(..)..)), but validateConditionals
interprets only `anyOf` and `not`, never `allOf`. Each condition inside the
anyOf therefore carries no `required` key, its required-check passes
vacuously, the inner anyOf is always satisfied, and the `not` wrapping it
always fails: validation rejects every payload of this tool, including a
payload with exactly one of the three fields and a payload with none of
them, where the claim (and the evident intent of the schema) expects
success. -/
theorem get_channel_messages_conditionals_reject_all :
    validateToolParams "get_channel_messages" [("channel_id", .vStr "123456789")] =
      .error (.vErr (newValidationError "conditional constraint"
        "the specified condition must not be satisfied" none)) ∧
    validateToolParams "get_channel_messages"
        [("channel_id", .vStr "123456789"), ("before", .vStr "111")] =
      .error (.vErr (newValidationError "conditional constraint"
        "the specified condition must not be satisfied" none)) ∧
    validateToolParams "get_channel_messages"
        [("channel_id", .vStr "123456789"), ("before", .vStr "111"),
         ("after", .vStr "222")] =
      .error (.vErr (newValidationError "conditional constraint"
        "the specified condition must not be satisfied" none)) := by
  refine ⟨?_, ?_, ?_⟩ <;>
  · simp [validateToolParams, getToolSchema, ToolSchemas, lookupKey, validateAgainstSchema,
      validateRequired, validateRequired.go, getStrList, getMap, getStr, getInt, getBool,
      getMapList, validateParamsLoop, validateParameter, validateType, validateString,
      validateNumeric, validateObject, validateArray, validateItems, validateConditionals,
      compiledRegexMatch, goLen, kindIsString, kindIsSlice, kindIsMap, isNumeric, isInteger,
      newValidationError, q, toFloat64, getNumericValue]
    rfl

/-- C4 counterexample: for the schema of the concrete case (required a and
b, only a declared among the properties), the payload a="ab", b="x" does not
pass as the claim states: the unknown-field check rejects the undeclared
field b. -/
theorem maxlength_example_unknown_b_counterexample :
    validateAgainstSchema exampleSchemaAB [("a", .vStr "ab"), ("b", .vStr "x")] =
      .error (newValidationError "unknown parameter"
        "parameter \x27b\x27 is not defined" (some "b")) ∧
    validateAgainstSchema exampleSchemaAB [("a", .vStr "ab"), ("b", .vStr "x")] ≠
      .ok () := by
  constructor
  · simp [exampleSchemaAB, validateAgainstSchema, validateRequired, validateRequired.go,
      lookupKey, getStrList, getMap, getStr, getInt, getBool, getMapList,
      validateParamsLoop, validateParameter, validateType, validateString, validateNumeric,
      validateObject, validateArray, validateItems, validateConditionals,
      compiledRegexMatch, goLen, kindIsString, kindIsSlice, kindIsMap, isNumeric, isInteger,
      newValidationError, q, toFloat64, getNumericValue]
    rfl
  · intro h
    rw [show validateAgainstSchema exampleSchemaAB [("a", .vStr "ab"), ("b", .vStr "x")] =
        .error (newValidationError "unknown parameter"
          "parameter \x27b\x27 is not defined" (some "b")) from by
      simp [exampleSchemaAB, validateAgainstSchema, validateRequired, validateRequired.go,
        lookupKey, getStrList, getMap, getStr, getInt, getBool, getMapList,
        validateParamsLoop, validateParameter, validateType, validateString,
        validateNumeric, validateObject, validateArray, validateItems, validateConditionals,
        compiledRegexMatch, goLen, kindIsString, kindIsSlice, kindIsMap, isNumeric,
        isInteger, newValidationError, q, toFloat64, getNumericValue]
      rfl] at h
    exact Except.noConfusion h

/-- C4 amended: with b also declared as a property (the repair the
unknown-field rule forces), the two verdicts of the concrete case hold:
a="abcd" fails with the length-constraint failure on field a, and a="ab"
passes. On the original schema the first verdict holds as well, the payload
iteration reaching the oversized a before the undeclared b. -/
theorem maxlength_example_amended :
    validateAgainstSchema exampleSchemaABDeclared [("a", .vStr "abcd"), ("b", .vStr "x")] =
      .error (newValidationError "length constraint"
        "parameter \x27a\x27 must be at most 3 characters, got 4" (some "a")) ∧
    validateAgainstSchema exampleSchemaABDeclared [("a", .vStr "ab"), ("b", .vStr "x")] =
      .ok () ∧
    validateAgainstSchema exampleSchemaAB [("a", .vStr "abcd"), ("b", .vStr "x")] =
      .error (newValidationError "length constraint"
        "parameter \x27a\x27 must be at most 3 characters, got 4" (some "a")) := by
  refine ⟨?_, ?_, ?_⟩ <;>
  · simp [exampleSchemaAB, exampleSchemaABDeclared, validateAgainstSchema, validateRequired,
      validateRequired.go, lookupKey, getStrList, getMap, getStr, getInt, getBool,
      getMapList, validateParamsLoop, validateParameter, validateType, validateString,
      validateNumeric, validateObject, validateArray, validateItems, validateConditionals,
      compiledRegexMatch, goLen, kindIsString, kindIsSlice, kindIsMap, isNumeric, isInteger,
      newValidationError, q, toFloat64, getNumericValue]
    rfl

/-- C3 counterexample: the unknown-field check is not a separate pass that
precedes per-field validation. For a schema declaring only the string
property a, the payload carrying first a type-mismatched a and then an
undeclared z is rejected with the type-mismatch failure on a, although z is
not a declared property: the claimed unknown-parameter failure on z is never
reached. -/
theorem unknown_field_check_not_prepass_counterexample :
    validateAgainstSchema exampleSchemaOnlyA [("a", .vInt 1), ("z", .vStr "x")] =
      .error (newValidationError "type mismatch"
        "parameter \x27a\x27 must be a string, got int" (some "a")) ∧
    lookupKey [("a", GoVal.vMap [("type", .vStr "string")])] "z" = none ∧
    "type mismatch" ≠ "unknown parameter" := by
  refine ⟨?_, by rfl, by decide⟩
  simp [exampleSchemaOnlyA, validateAgainstSchema, validateRequired, validateRequired.go,
    lookupKey, getStrList, getMap, getStr, getInt, getBool, getMapList,
    validateParamsLoop, validateParameter, validateType, validateString, validateNumeric,
    validateObject, validateArray, validateItems, validateConditionals,
    compiledRegexMatch, goLen, kindIsString, kindIsSlice, kindIsMap, isNumeric, isInteger,
    newValidationError, q, toFloat64, getNumericValue, govalTypeName]

/-- C3 amended: validation proceeds as follows. The required-field check
runs first and its failure (wrapped as a missing-required-parameter
failure) stops everything else. Then one pass walks the payload fields in
iteration order; for each field in turn the declared-property check runs
first and an undeclared field stops the pass with the unknown-parameter
failure, otherwise that field is validated and the first failing field
stops the pass. The unknown-field check is therefore interleaved per field
with per-field validation rather than forming a second complete pass. -/
theorem validation_order_amended :
    (∀ schemaMap params msg, validateRequired schemaMap params = .error msg →
       validateAgainstSchema schemaMap params =
         .error (newValidationError "missing required parameter" msg none)) ∧
    (∀ props (pre : List (String × GoVal)) x v post,
       (∀ p ∈ pre, ∃ s, lookupKey props p.1 = some s ∧ validateParameter p.1 p.2 s = .ok ()) →
       (lookupKey props x = none →
          validateParamsLoop props (pre ++ (x, v) :: post) =
            .error (newValidationError "unknown parameter"
              ("parameter " ++ q x ++ " is not defined") (some x))) ∧
       (∀ s e, lookupKey props x = some s → validateParameter x v s = .error e →
          validateParamsLoop props (pre ++ (x, v) :: post) = .error e)) := by
  constructor
  · intro schemaMap params msg h
    simp [validateAgainstSchema, h]
  · intro props pre x v post hpre
    induction pre with
    | nil =>
        constructor
        · intro hx
          simp [validateParamsLoop, hx]
        · intro s e hs he
          simp [validateParamsLoop, hs, he]
    | cons p rest ih =>
        obtain ⟨s0, hs0, hv0⟩ := hpre p (List.mem_cons_self p rest)
        have hrest : ∀ p ∈ rest, ∃ s, lookupKey props p.1 = some s ∧
            validateParameter p.1 p.2 s = .ok () := by
          intro p' hp'
          exact hpre p' (List.mem_cons_of_mem p hp')
        obtain ⟨ih1, ih2⟩ := ih hrest
        constructor
        · intro hx
          simpa [validateParamsLoop, hs0, hv0] using ih1 hx
        · intro s e hs he
          simpa [validateParamsLoop, hs0, hv0] using ih2 s e hs he

/-- C3 witness: the amended ordering applied at concrete inputs: a payload
missing the required field a is rejected by the required check, and an
undeclared first field is rejected by the interleaved unknown-field
check. -/
theorem validation_order_amended_witness :
    validateAgainstSchema exampleSchemaAB [("b", .vStr "x")] =
      .error (newValidationError "missing required parameter"
        "required parameter \x27a\x27 is missing" none) ∧
    validateParamsLoop [("a", GoVal.vMap [("type", .vStr "string")])]
        [("z", .vStr "x")] =
      .error (newValidationError "unknown parameter"
        "parameter \x27z\x27 is not defined" (some "z")) := by
  constructor
  · exact validation_order_amended.1 exampleSchemaAB [("b", .vStr "x")] _ (by rfl)
  · exact (validation_order_amended.2 [("a", GoVal.vMap [("type", .vStr "string")])]
      [] "z" (.vStr "x") [] (by simp)).1 (by rfl)

/-- C9 counterexample: there is no lock that both writing paths hold at
their marshal-plus-write step, because the response path of the session
loop holds no lock at all when it marshals and writes. -/
theorem shared_output_lock_counterexample :
    ¬ ∃ l, (∀ held ∈ locksHeldAtWrites serviceSendSync, l ∈ held) ∧
      (∀ held ∈ locksHeldAtWrites responseWriteSync, l ∈ held) := by
  rintro ⟨l, -, hresp⟩
  have h0 : ([] : List String) ∈ locksHeldAtWrites responseWriteSync := by
    simp [locksHeldAtWrites, locksHeldAtWrites.go, responseWriteSync]
  exact absurd (hresp [] h0) (List.not_mem_nil l)

/-- C9 amended: only the notification path serializes its marshal-plus-write
under a lock, namely the mutex owned by the notification service; the
response path of the session loop performs its marshal-plus-write while
holding no lock, so no common lock orders the two paths' writes. -/
theorem output_lock_amended :
    locksHeldAtWrites serviceSendSync = [["notifications.Service.mutex"]] ∧
    locksHeldAtWrites responseWriteSync = [[]] :=
  ⟨rfl, rfl⟩

/-- C10: ping and initialize are not gated by the handshake state. In every
session state a ping request is answered with the pong result and the
request id; an initialize request with absent or decodable params is
answered with the protocol version, capabilities and server identity; and
the initialize reply never carries the InvalidRequest code of the
not-initialized gate (its only error, on undecodable params, is
InvalidParams). -/
theorem ping_and_init_not_gated :
    (∀ (s : ServerState) (jr : String) (id : Option GoVal) (p : Option GoVal),
      processRequest s ⟨jr, id, "ping", p⟩ =
        (s, some ⟨jsonrpcVersion, id, some (.pong [("status", "pong")]), none⟩)) ∧
    (∀ (s : ServerState) (jr : String) (id : Option GoVal),
      processRequest s ⟨jr, id, "initialize", none⟩ =
        (s, some ⟨jsonrpcVersion, id, some (.initResult ⟨protocolVersionConst,
          ⟨some ⟨false⟩⟩, ⟨s.serverName, s.serverVersion⟩⟩), none⟩)) ∧
    (∀ (s : ServerState) (jr : String) (id : Option GoVal) (pv : GoVal)
       (p0 : InitializeParams), decodeInitializeParams pv = .ok p0 →
      processRequest s ⟨jr, id, "initialize", some pv⟩ =
        (s, some ⟨jsonrpcVersion, id, some (.initResult ⟨protocolVersionConst,
          ⟨some ⟨false⟩⟩, ⟨s.serverName, s.serverVersion⟩⟩), none⟩)) ∧
    (∀ (s : ServerState) (jr : String) (id : Option GoVal) (p : Option GoVal),
      (responseErrorOf (processRequest s ⟨jr, id, "initialize", p⟩).2).map RpcError.code ≠
        some invalidRequestCode) := by
  refine ⟨?_, ?_, ?_, ?_⟩
  · intro s jr id p
    rfl
  · intro s jr id
    rfl
  · intro s jr id pv p0 h
    simp [processRequest, handleInitializeRequest, h]
  · intro s jr id p
    cases p with
    | none => simp [processRequest, handleInitializeRequest, responseErrorOf]
    | some pv =>
        cases h : decodeInitializeParams pv with
        | error e =>
            simp [processRequest, handleInitializeRequest, h, responseErrorOf,
              invalidParamsCode, invalidRequestCode]
        | ok p0 =>
            simp [processRequest, handleInitializeRequest, h, responseErrorOf]

/-- C10 witness: the ungated methods at a concrete uninitialized state. -/
theorem ping_and_init_not_gated_witness :
    processRequest ⟨"srv", "1", [], false⟩ ⟨"2.0", some (.vInt 1), "ping", none⟩ =
      (⟨"srv", "1", [], false⟩, some ⟨jsonrpcVersion, some (.vInt 1),
        some (.pong [("status", "pong")]), none⟩) ∧
    processRequest ⟨"srv", "1", [], false⟩
        ⟨"2.0", some (.vInt 1), "initialize", some (.vMap [])⟩ =
      (⟨"srv", "1", [], false⟩, some ⟨jsonrpcVersion, some (.vInt 1),
        some (.initResult ⟨protocolVersionConst, ⟨some ⟨false⟩⟩, ⟨"srv", "1"⟩⟩), none⟩) ∧
    (responseErrorOf (processRequest ⟨"srv", "1", [], false⟩
        ⟨"2.0", some (.vInt 1), "initialize", none⟩).2).map RpcError.code ≠
      some invalidRequestCode := by
  refine ⟨?_, ?_, ?_⟩
  · exact ping_and_init_not_gated.1 ⟨"srv", "1", [], false⟩ "2.0" (some (.vInt 1)) none
  · exact ping_and_init_not_gated.2.2.1 ⟨"srv", "1", [], false⟩ "2.0" (some (.vInt 1))
      (.vMap []) { protocolVersion := "", clientName := "", clientVersion := "" } (by rfl)
  · exact ping_and_init_not_gated.2.2.2 ⟨"srv", "1", [], false⟩ "2.0" (some (.vInt 1)) none

/-- C1 counterexample: the InvalidRequest error produced while the session
is Uninitialized carries the message "Server not initialized" (capital S),
not the claimed "server not initialized". -/
theorem uninitialized_error_message_counterexample :
    (processRequest ⟨"srv", "1", [], false⟩
        ⟨"2.0", some (.vInt 1), "tools/call", none⟩).2 =
      some ⟨jsonrpcVersion, some (.vInt 1), none,
        some ⟨invalidRequestCode, "Server not initialized", none⟩⟩ ∧
    "Server not initialized" ≠ "server not initialized" :=
  ⟨rfl, by decide⟩

/-- C1 amended: every tools/call or tools/list request dispatched while the
session is Uninitialized is answered with a Response carrying the
InvalidRequest error with message "Server not initialized" (capital S) and
the request id, for every registry and every params member (in particular
regardless of whether the named tool exists, the tool name not even being
decoded first); the `initialized` notification flips the session flag and
receives no response; and afterwards tools/list returns the registered
definitions and tools/call never produces the not-initialized error
again. -/
theorem uninitialized_gate_amended :
    (∀ (nm vr : String) (ts : List (String × ToolHandler)) (jr : String)
       (id : Option GoVal) (p : Option GoVal),
      processRequest ⟨nm, vr, ts, false⟩ ⟨jr, id, "tools/call", p⟩ =
        (⟨nm, vr, ts, false⟩, some ⟨jsonrpcVersion, id, none,
          some ⟨invalidRequestCode, "Server not initialized", none⟩⟩) ∧
      processRequest ⟨nm, vr, ts, false⟩ ⟨jr, id, "tools/list", p⟩ =
        (⟨nm, vr, ts, false⟩, some ⟨jsonrpcVersion, id, none,
          some ⟨invalidRequestCode, "Server not initialized", none⟩⟩)) ∧
    (∀ (s : ServerState) (jr : String) (id : Option GoVal) (p : Option GoVal),
      processRequest s ⟨jr, id, "initialized", p⟩ =
        ({ s with initialized := true }, none)) ∧
    (∀ (nm vr : String) (ts : List (String × ToolHandler)) (jr : String)
       (id : Option GoVal) (p : Option GoVal),
      processRequest ⟨nm, vr, ts, true⟩ ⟨jr, id, "tools/list", p⟩ =
        (⟨nm, vr, ts, true⟩, some ⟨jsonrpcVersion, id,
          some (.toolsList (ts.map fun t => t.2.definition)), none⟩)) ∧
    (∀ (nm vr : String) (ts : List (String × ToolHandler)) (jr : String)
       (id : Option GoVal) (p : Option GoVal),
      responseErrorOf (processRequest ⟨nm, vr, ts, true⟩ ⟨jr, id, "tools/call", p⟩).2 ≠
        some ⟨invalidRequestCode, "Server not initialized", none⟩) := by
  refine ⟨?_, ?_, ?_, ?_⟩
  · intro nm vr ts jr id p
    exact ⟨rfl, rfl⟩
  · intro s jr id p
    rfl
  · intro nm vr ts jr id p
    rfl
  · intro nm vr ts jr id p
    have h1 : (processRequest ⟨nm, vr, ts, true⟩ ⟨jr, id, "tools/call", p⟩).2 =
        handleToolCall ⟨nm, vr, ts, true⟩ ⟨jr, id, "tools/call", p⟩ := rfl
    rw [h1, handleToolCall]
    cases hdec : (match (⟨jr, id, "tools/call", p⟩ : Request).params with
      | none => (.error "unexpected end of JSON input" : Except String CallToolParams)
      | some pv => decodeCallToolParams pv) with
    | error e =>
        simp +decide [hdec, responseErrorOf, invalidParamsCode, invalidRequestCode]
    | ok params =>
        cases hl : lookupHandler ts params.name with
        | none =>
            simp +decide [hdec, hl, responseErrorOf, methodNotFoundCode, invalidRequestCode]
        | some handler =>
            cases hx : handler.execute params with
            | mk result goErr =>
                cases goErr with
                | none => simp [hdec, hl, hx, responseErrorOf]
                | some errMsg =>
                    simp +decide [hdec, hl, hx, responseErrorOf, internalErrorCode,
                      invalidRequestCode]

/-- C1 witness: the amended gate at concrete inputs: a tools/call before the
handshake gets the capitalized not-initialized error even though no tool is
registered, and after the handshake no such error arises. -/
theorem uninitialized_gate_amended_witness :
    processRequest ⟨"srv", "1", [], false⟩ ⟨"2.0", some (.vInt 7), "tools/call", none⟩ =
      (⟨"srv", "1", [], false⟩, some ⟨jsonrpcVersion, some (.vInt 7), none,
        some ⟨invalidRequestCode, "Server not initialized", none⟩⟩) ∧
    processRequest ⟨"srv", "1", [], false⟩ ⟨"2.0", some (.vInt 7), "initialized", none⟩ =
      (⟨"srv", "1", [], true⟩, none) ∧
    responseErrorOf (processRequest ⟨"srv", "1", [], true⟩
        ⟨"2.0", some (.vInt 7), "tools/call", none⟩).2 ≠
      some ⟨invalidRequestCode, "Server not initialized", none⟩ := by
  refine ⟨?_, ?_, ?_⟩
  · exact (uninitialized_gate_amended.1 "srv" "1" [] "2.0" (some (.vInt 7)) none).1
  · exact uninitialized_gate_amended.2.1 ⟨"srv", "1", [], false⟩ "2.0" (some (.vInt 7)) none
  · exact uninitialized_gate_amended.2.2.2 "srv" "1" [] "2.0" (some (.vInt 7)) none

/-- C8: for each of the three Discord event handlers, a notification is
handed to Send exactly when the global enable flag is set and the event
name is in the allow-list; and the output gains exactly the one marshalled
envelope line when additionally the writer is configured and writable,
while in every other case (suppressed event, unconfigured writer, failing
write) the output is unchanged and the handler still returns: the write
failure is swallowed without retry. -/
theorem event_notification_gating :
    (∀ (config : EventsConfig) (configured : Bool) (marshal : Notification → String)
       (sink : Sink) (m : MessageCreateEvent),
      (handleMessageCreate config configured marshal sink m).2.isSome =
        (config.enabled && isEventAllowed config "discord/messageCreated") ∧
      (handleMessageCreate config configured marshal sink m).1.lines =
        (if config.enabled && isEventAllowed config "discord/messageCreated" &&
            configured && !sink.failing then
          sink.lines ++ [marshal (createNotification "discord/messageCreated" [
            ("guild_id", .vStr m.guildID),
            ("channel_id", .vStr m.channelID),
            ("message_id", .vStr m.id),
            ("author_id", .vStr m.authorID),
            ("content", .vStr m.content)])]
        else sink.lines)) ∧
    (∀ (config : EventsConfig) (configured : Bool) (marshal : Notification → String)
       (sink : Sink) (m : GuildMemberAddEvent),
      (handleGuildMemberAdd config configured marshal sink m).2.isSome =
        (config.enabled && isEventAllowed config "discord/guildMemberAdded") ∧
      (handleGuildMemberAdd config configured marshal sink m).1.lines =
        (if config.enabled && isEventAllowed config "discord/guildMemberAdded" &&
            configured && !sink.failing then
          sink.lines ++ [marshal (createNotification "discord/guildMemberAdded" [
            ("guild_id", .vStr m.guildID),
            ("user", .vMap [
              ("id", .vStr m.userID),
              ("username", .vStr m.username)])])]
        else sink.lines)) ∧
    (∀ (config : EventsConfig) (configured : Bool) (marshal : Notification → String)
       (sink : Sink) (r : MessageReactionAddEvent),
      (handleMessageReactionAdd config configured marshal sink r).2.isSome =
        (config.enabled && isEventAllowed config "discord/messageReactionAdded") ∧
      (handleMessageReactionAdd config configured marshal sink r).1.lines =
        (if config.enabled && isEventAllowed config "discord/messageReactionAdded" &&
            configured && !sink.failing then
          sink.lines ++ [marshal (createNotification "discord/messageReactionAdded" [
            ("guild_id", .vStr r.guildID),
            ("channel_id", .vStr r.channelID),
            ("message_id", .vStr r.messageID),
            ("user_id", .vStr r.userID),
            ("emoji", .vMap [
              ("id", .vStr r.emojiID),
              ("name", .vStr r.emojiName)])])]
        else sink.lines)) := by
  refine ⟨?_, ?_, ?_⟩
  · intro config configured marshal sink ev
    cases he : config.enabled <;>
      cases ha : isEventAllowed config "discord/messageCreated" <;>
      cases hc : configured <;>
      cases hf : sink.failing <;>
        simp [handleMessageCreate, serviceSend, createNotification, he, ha, hc, hf]
  · intro config configured marshal sink ev
    cases he : config.enabled <;>
      cases ha : isEventAllowed config "discord/guildMemberAdded" <;>
      cases hc : configured <;>
      cases hf : sink.failing <;>
        simp [handleGuildMemberAdd, serviceSend, createNotification, he, ha, hc, hf]
  · intro config configured marshal sink ev
    cases he : config.enabled <;>
      cases ha : isEventAllowed config "discord/messageReactionAdded" <;>
      cases hc : configured <;>
      cases hf : sink.failing <;>
        simp [handleMessageReactionAdd, serviceSend, createNotification, he, ha, hc, hf]

/-- C6: the ownership override of the edit-message permission rule. With
the fetches resolving to a guild channel whose resolved mask is `mask`, a
target message by `authorID` and the bot identity `botID`: editing the
bot's own message is authorized exactly when the SEND_MESSAGES bit is in
the mask, editing another user's message exactly when the MANAGE_MESSAGES
bit is; hence for every mask containing SEND_MESSAGES but not
MANAGE_MESSAGES, the self-edit is authorized and the foreign edit is denied
with the PermissionError naming the missing MANAGE_MESSAGES capability. -/
theorem edit_message_ownership_override (mask : Nat) (g authorID botID cid mid : String)
    (hg : g ≠ "") :
    (authorID = botID →
      (canEditMessage (editEnv mask g authorID botID) cid mid = .ok () ↔
        mask &&& permissionSendMessages ≠ 0)) ∧
    (authorID ≠ botID →
      (canEditMessage (editEnv mask g authorID botID) cid mid = .ok () ↔
        mask &&& permissionManageMessages ≠ 0)) ∧
    (mask &&& permissionSendMessages ≠ 0 → mask &&& permissionManageMessages = 0 →
      (authorID = botID → canEditMessage (editEnv mask g authorID botID) cid mid = .ok ()) ∧
      (authorID ≠ botID → canEditMessage (editEnv mask g authorID botID) cid mid =
        .error (.perm (newPermissionError "edit_others_message" "MANAGE_MESSAGES"
          ("message:" ++ mid)
          "Bot cannot edit other users\x27 messages without MANAGE_MESSAGES permission")))) := by
  have hrun : canEditMessage (editEnv mask g authorID botID) cid mid =
      (if authorID = botID then
        (if mask &&& permissionSendMessages = 0 then
          .error (.perm (newPermissionError "edit_own_message" "SEND_MESSAGES"
            ("message:" ++ mid)
            "Bot cannot edit its own messages without SEND_MESSAGES permission"))
        else .ok ())
      else
        (if mask &&& permissionManageMessages = 0 then
          .error (.perm (newPermissionError "edit_others_message" "MANAGE_MESSAGES"
            ("message:" ++ mid)
            "Bot cannot edit other users\x27 messages without MANAGE_MESSAGES permission"))
        else .ok ())) := by
    simp only [canEditMessage, editEnv, env0, getUserChannelPermissionsChk,
      getChannelInfoChk, getMessageInfoChk, mkChannel, mkMessage, hg, if_neg,
      bind, Except.bind, pure, Except.pure, throw, throwThe, MonadExceptOf.throw]
    by_cases hab : authorID = botID <;>
      by_cases hs : mask &&& permissionSendMessages = 0 <;>
      by_cases hm : mask &&& permissionManageMessages = 0 <;>
        simp [hab, hs, hm, hg]
  refine ⟨?_, ?_, ?_⟩
  · intro hab
    rw [hrun]
    by_cases hs : mask &&& permissionSendMessages = 0
    · simp [hab, hs]
    · simp [hab, hs]
  · intro hab
    rw [hrun]
    by_cases hm : mask &&& permissionManageMessages = 0
    · simp [hab, hm]
    · simp [hab, hm]
  · intro hs hm
    constructor
    · intro hab
      rw [hrun]
      simp [hab, hs]
    · intro hab
      rw [hrun]
      simp [hab, hm]

/-- C6 witness: with the mask holding exactly SEND_MESSAGES, the bot may
edit its own message and is denied MANAGE_MESSAGES on another user's. -/
theorem edit_message_ownership_override_witness :
    canEditMessage (editEnv 2048 "g" "bot-1" "bot-1") "c" "m" = .ok () ∧
    canEditMessage (editEnv 2048 "g" "user-2" "bot-1") "c" "m" =
      .error (.perm (newPermissionError "edit_others_message" "MANAGE_MESSAGES" "message:m"
        "Bot cannot edit other users\x27 messages without MANAGE_MESSAGES permission")) := by
  constructor
  · exact ((edit_message_ownership_override 2048 "g" "bot-1" "bot-1" "c" "m"
      (by decide)).2.2 (by decide) (by decide)).1 rfl
  · exact ((edit_message_ownership_override 2048 "g" "user-2" "bot-1" "c" "m"
      (by decide)).2.2 (by decide) (by decide)).2 (by decide)

theorem validateRequired_go_missing (params : List (String × GoVal)) (req : List String)
    (X : String) (hX : X ∈ req) (hmiss : lookupKey params X = none) :
    ∃ m, validateRequired.go params req = .error m := by
  induction req with
  | nil => cases hX
  | cons r rest ih =>
      cases hr : lookupKey params r with
      | none =>
          exact ⟨"required parameter " ++ q r ++ " is missing",
            by simp [validateRequired.go, hr]⟩
      | some v =>
          rcases List.mem_cons.mp hX with h | h
          · subst h
            rw [hr] at hmiss
            cases hmiss
          · obtain ⟨m, hm⟩ := ih h
            exact ⟨m, by simp [validateRequired.go, hr, hm]⟩

theorem validateToolParams_missing (name : String) (schemaMap : List (String × GoVal))
    (req : List String) (X : String) (args : List (String × GoVal))
    (hschema : getToolSchema name = some (.vMap schemaMap))
    (hreq : getStrList schemaMap "required" = some req)
    (hX : X ∈ req) (hmiss : lookupKey args X = none) :
    ∃ m, validateToolParams name args =
      .error (.vErr (newValidationError "missing required parameter" m none)) := by
  obtain ⟨m, hm⟩ := validateRequired_go_missing args req X hX hmiss
  refine ⟨m, ?_⟩
  unfold validateToolParams validateAgainstSchema validateRequired
  simp [hschema, hreq, hm, newValidationError]

/-- C7: for every tool implementation of the repository whose registered
schema declares a required field X, a call whose arguments omit X returns
the formatted missing-required-parameter validation failure, and the result
does not depend on the remote-service oracle at all: in particular no
permission check (a consultation of that oracle) takes place. -/
theorem validation_precedes_permission :
    ∀ t ∈ allToolImpls, ∀ X ∈ requiredFieldsOfTool t.definition,
    ∀ (p : CallToolParams) (env env' : DiscordEnv),
    lookupKey p.arguments X = none →
    (∃ m, t.execute env p =
      (formatValidationError (.vErr (newValidationError "missing required parameter" m none)),
        none)) ∧
    t.execute env p = t.execute env' p := by
  intro t ht X hX p env env' hmiss
  simp only [allToolImpls, List.mem_cons, List.not_mem_nil, or_false] at ht
  rcases ht with h|h|h|h|h|h|h|h|h|h|h|h|h|h|h|h <;> subst h
  · obtain ⟨m, hm⟩ := validateToolParams_missing "send_message" _ _ X p.arguments rfl rfl
      (show X ∈ ["channel_id", "content"] from hX) hmiss
    exact ⟨⟨m, by simp [sendMessageImpl, sendMessageExecute, hm]⟩,
      by simp [sendMessageImpl, sendMessageExecute, hm]⟩
  · obtain ⟨m, hm⟩ := validateToolParams_missing "get_channel_messages" _ _ X p.arguments
      rfl rfl (show X ∈ ["channel_id"] from hX) hmiss
    exact ⟨⟨m, by simp [getChannelMessagesImpl, getChannelMessagesExecute, hm]⟩,
      by simp [getChannelMessagesImpl, getChannelMessagesExecute, hm]⟩
  · obtain ⟨m, hm⟩ := validateToolParams_missing "edit_message" _ _ X p.arguments rfl rfl
      (show X ∈ ["channel_id", "message_id"] from hX) hmiss
    exact ⟨⟨m, by simp [editMessageImpl, editMessageExecute, hm]⟩,
      by simp [editMessageImpl, editMessageExecute, hm]⟩
  · obtain ⟨m, hm⟩ := validateToolParams_missing "delete_message" _ _ X p.arguments rfl rfl
      (show X ∈ ["channel_id", "message_id"] from hX) hmiss
    exact ⟨⟨m, by simp [deleteMessageImpl, deleteMessageExecute, hm]⟩,
      by simp [deleteMessageImpl, deleteMessageExecute, hm]⟩
  · obtain ⟨m, hm⟩ := validateToolParams_missing "add_reaction" _ _ X p.arguments rfl rfl
      (show X ∈ ["channel_id", "message_id", "emoji"] from hX) hmiss
    exact ⟨⟨m, by simp [addReactionImpl, addReactionExecute, hm]⟩,
      by simp [addReactionImpl, addReactionExecute, hm]⟩
  · obtain ⟨m, hm⟩ := validateToolParams_missing "list_channels" _ _ X p.arguments rfl rfl
      (show X ∈ ["guild_id"] from hX) hmiss
    exact ⟨⟨m, by simp [listChannelsImpl, listChannelsExecute, hm]⟩,
      by simp [listChannelsImpl, listChannelsExecute, hm]⟩
  · obtain ⟨m, hm⟩ := validateToolParams_missing "get_channel_info" _ _ X p.arguments rfl rfl
      (show X ∈ ["channel_id"] from hX) hmiss
    exact ⟨⟨m, by simp [getChannelInfoImpl, getChannelInfoExecute, hm]⟩,
      by simp [getChannelInfoImpl, getChannelInfoExecute, hm]⟩
  · obtain ⟨m, hm⟩ := validateToolParams_missing "get_guild_info" _ _ X p.arguments rfl rfl
      (show X ∈ ["guild_id"] from hX) hmiss
    exact ⟨⟨m, by simp [getGuildInfoImpl, getGuildInfoExecute, hm]⟩,
      by simp [getGuildInfoImpl, getGuildInfoExecute, hm]⟩
  · obtain ⟨m, hm⟩ := validateToolParams_missing "list_guild_members" _ _ X p.arguments
      rfl rfl (show X ∈ ["guild_id"] from hX) hmiss
    exact ⟨⟨m, by simp [listGuildMembersImpl, listGuildMembersExecute, hm]⟩,
      by simp [listGuildMembersImpl, listGuildMembersExecute, hm]⟩
  · obtain ⟨m, hm⟩ := validateToolParams_missing "list_roles" _ _ X p.arguments rfl rfl
      (show X ∈ ["guild_id"] from hX) hmiss
    exact ⟨⟨m, by simp [listRolesImpl, listRolesExecute, hm]⟩,
      by simp [listRolesImpl, listRolesExecute, hm]⟩
  · obtain ⟨m, hm⟩ := validateToolParams_missing "get_role_info" _ _ X p.arguments rfl rfl
      (show X ∈ ["guild_id", "role_id"] from hX) hmiss
    exact ⟨⟨m, by simp [getRoleInfoImpl, getRoleInfoExecute, hm]⟩,
      by simp [getRoleInfoImpl, getRoleInfoExecute, hm]⟩
  · obtain ⟨m, hm⟩ := validateToolParams_missing "create_role" _ _ X p.arguments rfl rfl
      (show X ∈ ["guild_id", "name"] from hX) hmiss
    exact ⟨⟨m, by simp [createRoleImpl, createRoleExecute, hm]⟩,
      by simp [createRoleImpl, createRoleExecute, hm]⟩
  · obtain ⟨m, hm⟩ := validateToolParams_missing "delete_role" _ _ X p.arguments rfl rfl
      (show X ∈ ["guild_id", "role_id"] from hX) hmiss
    exact ⟨⟨m, by simp [deleteRoleImpl, deleteRoleExecute, hm]⟩,
      by simp [deleteRoleImpl, deleteRoleExecute, hm]⟩
  · obtain ⟨m, hm⟩ := validateToolParams_missing "assign_role" _ _ X p.arguments rfl rfl
      (show X ∈ ["guild_id", "role_id", "user_id"] from hX) hmiss
    exact ⟨⟨m, by simp [assignRoleImpl, assignRoleExecute, hm]⟩,
      by simp [assignRoleImpl, assignRoleExecute, hm]⟩
  · obtain ⟨m, hm⟩ := validateToolParams_missing "unassign_role" _ _ X p.arguments rfl rfl
      (show X ∈ ["guild_id", "role_id", "user_id"] from hX) hmiss
    exact ⟨⟨m, by simp [unassignRoleImpl, unassignRoleExecute, hm]⟩,
      by simp [unassignRoleImpl, unassignRoleExecute, hm]⟩
  · exact absurd (show X ∈ ([] : List String) from hX) (List.not_mem_nil X)

/-- C7 witness: send_message called without its required content field is
rejected by validation with the same result under two different oracles. -/
theorem validation_precedes_permission_witness :
    (∃ m, sendMessageImpl.execute env0 ⟨"send_message", [("channel_id", .vStr "123")]⟩ =
      (formatValidationError (.vErr (newValidationError "missing required parameter" m none)),
        none)) ∧
    sendMessageImpl.execute env0 ⟨"send_message", [("channel_id", .vStr "123")]⟩ =
      sendMessageImpl.execute (editEnv 0 "g" "a" "b")
        ⟨"send_message", [("channel_id", .vStr "123")]⟩ :=
  validation_precedes_permission sendMessageImpl (by simp [allToolImpls]) "content"
    (show "content" ∈ ["channel_id", "content"] from by simp) ⟨"send_message",
      [("channel_id", .vStr "123")]⟩ env0 (editEnv 0 "g" "a" "b") (by rfl)

/-- C5: validation and permission failures of a tools/call are delivered as
a successful Response envelope, never as a transport error. Whenever an
initialized server dispatches tools/call to a registered handler whose
execution returns a result with a nil Go error, the Response carries that
result and no error member; the send_message pipeline returns exactly the
formatted validation result on a validation failure and exactly the
formatted permission result on a permission failure; and the two formatted
results carry isError and the structured error-type/message/field
respectively error-type/operation/permission/resource/description
payloads. -/
theorem failures_as_successful_envelope :
    (∀ (nm vr : String) (ts : List (String × ToolHandler)) (jr : String)
       (id : Option GoVal) (pv : GoVal) (p : CallToolParams) (h : ToolHandler)
       (r : CallToolResult),
      decodeCallToolParams pv = .ok p →
      lookupHandler ts p.name = some h →
      h.execute p = (r, none) →
      processRequest ⟨nm, vr, ts, true⟩ ⟨jr, id, "tools/call", some pv⟩ =
        (⟨nm, vr, ts, true⟩, some ⟨jsonrpcVersion, id, some (.callResult r), none⟩)) ∧
    (∀ (env : DiscordEnv) (args : List (String × GoVal)) (e : GoErr),
      validateToolParams "send_message" args = .error e →
      sendMessageExecute env ⟨"send_message", args⟩ = (formatValidationError e, none)) ∧
    (∀ (env : DiscordEnv) (pe : PermissionError),
      validateMessageOperation env "send_message" "123" [("tts", .vBool false)] =
        .error (.perm pe) →
      sendMessageExecute env ⟨"send_message",
          [("channel_id", .vStr "123"), ("content", .vStr "hi")]⟩ =
        (formatPermissionError pe, none)) ∧
    (∀ e, (formatValidationError e).isError = true) ∧
    (∀ pe, (formatPermissionError pe).isError = true) ∧
    (∀ ve : ValidationError, (formatValidationError (.vErr ve)).content.map Content.data =
      [some (.vMap [("error_type", .vStr ve.type), ("message", .vStr ve.message),
        ("field", match ve.field with | some f => .vStr f | none => .vNull)])]) ∧
    (∀ pe : PermissionError, (formatPermissionError pe).content.map Content.data =
      [some (.vMap [("error_type", .vStr "permission"), ("operation", .vStr pe.operation),
        ("permission", .vStr pe.permission), ("resource", .vStr pe.resource),
        ("description", .vStr pe.description)])]) := by
  refine ⟨?_, ?_, ?_, ?_, ?_, ?_, ?_⟩
  · intro nm vr ts jr id pv p h r hdec hl hx
    have h1 : processRequest ⟨nm, vr, ts, true⟩ ⟨jr, id, "tools/call", some pv⟩ =
        (⟨nm, vr, ts, true⟩, handleToolCall ⟨nm, vr, ts, true⟩
          ⟨jr, id, "tools/call", some pv⟩) := rfl
    rw [h1, handleToolCall]
    simp [hdec, hl, hx]
  · intro env args e h
    simp [sendMessageExecute, h]
  · intro env pe h
    have hval : validateToolParams "send_message"
        [("channel_id", .vStr "123"), ("content", .vStr "hi")] = .ok () := by
      simp [validateToolParams, getToolSchema, ToolSchemas, lookupKey, validateAgainstSchema,
        validateRequired, validateRequired.go, getStrList, getMap, getStr, getInt, getBool,
        getMapList, validateParamsLoop, validateParameter, validateType, validateString,
        validateNumeric, validateObject, validateArray, validateItems, validateConditionals,
        compiledRegexMatch, goLen, kindIsString, kindIsSlice, kindIsMap, isNumeric,
        isInteger, newValidationError, q, toFloat64, getNumericValue]
      rfl
    simp [sendMessageExecute, hval, getStr, getBool, lookupKey, h]
  · intro e
    rfl
  · intro pe
    rfl
  · intro ve
    rfl
  · intro pe
    rfl

/-- C5 witness: a send_message call missing its required content field is
answered through the initialized server with a successful envelope whose
result is the formatted validation failure, and a send_message execution
against an oracle granting no channel permissions returns the formatted
permission failure. -/
theorem failures_as_successful_envelope_witness :
    processRequest ⟨"srv", "1", registerAllTools env0, true⟩
        ⟨"2.0", some (.vInt 1), "tools/call",
          some (.vMap [("name", .vStr "send_message"),
            ("arguments", .vMap [("channel_id", .vStr "123")])])⟩ =
      (⟨"srv", "1", registerAllTools env0, true⟩,
        some ⟨jsonrpcVersion, some (.vInt 1),
          some (.callResult (formatValidationError (.vErr (newValidationError
            "missing required parameter"
            "required parameter \x27content\x27 is missing" none)))), none⟩) ∧
    sendMessageExecute (editEnv 0 "g" "a" "b")
        ⟨"send_message", [("channel_id", .vStr "123"), ("content", .vStr "hi")]⟩ =
      (formatPermissionError (newPermissionError "view_channel" "VIEW_CHANNEL"
        "channel:123" "Bot cannot view this channel"), none) := by
  have hval : validateToolParams "send_message" [("channel_id", .vStr "123")] =
      .error (.vErr (newValidationError "missing required parameter"
        "required parameter \x27content\x27 is missing" none)) := by
    simp [validateToolParams, getToolSchema, ToolSchemas, lookupKey, validateAgainstSchema,
      validateRequired, validateRequired.go, getStrList, newValidationError, q]
  constructor
  · exact failures_as_successful_envelope.1 "srv" "1" (registerAllTools env0) "2.0"
      (some (.vInt 1))
      (.vMap [("name", .vStr "send_message"),
        ("arguments", .vMap [("channel_id", .vStr "123")])])
      ⟨"send_message", [("channel_id", .vStr "123")]⟩
      ⟨sendMessageImpl.definition, sendMessageImpl.execute env0⟩
      (formatValidationError (.vErr (newValidationError "missing required parameter"
        "required parameter \x27content\x27 is missing" none)))
      (by rfl) (by rfl)
      (failures_as_successful_envelope.2.1 env0 [("channel_id", .vStr "123")] _ hval)
  · refine failures_as_successful_envelope.2.2.1 (editEnv 0 "g" "a" "b")
      (newPermissionError "view_channel" "VIEW_CHANNEL" "channel:123"
        "Bot cannot view this channel") ?_
    simp +decide [validateMessageOperation, canViewChannel, getUserChannelPermissionsChk,
      getChannelInfoChk, editEnv, env0, mkChannel, permissionViewChannel,
      newPermissionError, bind, Except.bind, pure, Except.pure, throw, throwThe,
      MonadExceptOf.throw]
